import Mathlib

/-!
Verification of the dispatch-and-lifecycle layer of the ChatterBox RunPod
serverless handler (src/handler.py).

The handler is embedded shallowly: the external collaborators (base64
decoder, model loaders, model generation, the audio container writer, and
the filesystem unlink call) are oracles collected in an `Env` record, each
returning `Except String` to model a Python call that may raise.  The
mutable process state (the global `_models` cache and the set of live
temporary files) is threaded explicitly through a `St` record.  A Python
function that may raise an uncaught exception is embedded as a function
returning `(Except String α) × St`: the `Except.error` constructor is an
exception propagating out of the function, and the state component records
the side effects performed before the exception was raised (Python global
mutations are not rolled back by an exception).

Temporary files are identified by the counter value used to allocate them
(`tempfile.NamedTemporaryFile` yields a fresh name on each call); the path
string passed to the model is `tempName id`.  `St.files` is the list of
temp files currently existing on disk.  `St.loads` logs every model load
attempt, `St.genCalls` logs every TTS `model.generate` invocation with the
exact keyword arguments passed, and `St.vcCalls` logs the voice-conversion
invocations; these logs let theorems speak about which loads and which
invocation arguments occurred.
-/

deriving instance DecidableEq for Except

namespace Chatterbox

/-- Raw byte payloads (decoded audio, wav buffers) as lists of bytes. -/
abbrev Bytes := List Nat

/-- A loaded model handle.  The handler only reads `model.sr` from it; the
identity of the handle matters for cache claims, so the record also carries
an id distinguishing separately constructed models. -/
structure Model where
  uid : Nat
  sr : Nat
deriving DecidableEq, Repr

/-- The three loadable model variants of `_models` in src/handler.py. -/
inductive Variant
  | english
  | multilingual
  | voice_clone
deriving DecidableEq, Repr

/-- Keyword arguments of a TTS `model.generate` call (src/handler.py lines
144-168).  `language_id = none` means the keyword was not passed. -/
structure GenArgs where
  text : String
  language_id : Option String
  repetition_penalty : Rat
  min_p : Rat
  top_p : Rat
  audio_prompt_path : Option String
  exaggeration : Rat
  cfg_weight : Rat
  temperature : Rat
deriving DecidableEq, Repr

/-- Arguments of the voice-conversion `model.generate` call (lines 229-232). -/
structure VCArgs where
  audio : String
  target_voice_path : String
deriving DecidableEq, Repr

/-- One logged TTS generate invocation: which model (and reported type) was
invoked with which arguments. -/
structure GenCall where
  model_type : String
  model : Model
  args : GenArgs
deriving DecidableEq, Repr

/-- The job input dictionary.  Every field read by the handler via
`job_input.get(key, default)` is an `Option`; `none` stands both for an
absent key and for an explicit JSON null, which `dict.get` treats alike
here (a null `mode` still compares unequal to "voice_clone", a null `text`
is falsy, and so on).  Non-string values for the string fields are outside
the embedding. -/
structure JobInput where
  mode : Option String := none
  text : Option String := none
  language_id : Option String := none
  voice_sample_base64 : Option String := none
  audio_prompt_path : Option String := none
  source_audio_base64 : Option String := none
  target_voice_base64 : Option String := none
  repetition_penalty : Option Rat := none
  min_p : Option Rat := none
  top_p : Option Rat := none
  exaggeration : Option Rat := none
  cfg_weight : Option Rat := none
  temperature : Option Rat := none
  return_format : Option String := none
deriving DecidableEq, Repr

/-- The response dictionary.  Each field is `some` exactly when the Python
dict returned by the handler contains that key; `language_id` is doubly
optional because the success dict always contains the key, whose value may
itself be Python None. -/
structure JobResponse where
  audio_base64 : Option String := none
  sample_rate : Option Nat := none
  format : Option String := none
  language_id : Option (Option String) := none
  model_type : Option String := none
  mode : Option String := none
  voice_cloned : Option Bool := none
  message : Option String := none
  error : Option String := none
deriving DecidableEq, Repr

/-- A response consisting of nothing but an error string: the shape built
by every error return in src/handler.py. -/
def pureErr (e : String) : JobResponse := { error := some e }

/-- The external collaborators, each a deterministic oracle.  An
`Except.error e` outcome models the Python call raising an exception whose
`str` is `e`.  `unlinkFails f` tells whether `os.unlink` on temp file `f`
raises. -/
structure Env where
  b64decode : String → Except String Bytes
  loadModel : Variant → Except String Model
  generate : Model → GenArgs → Except String Bytes
  generateVC : Model → VCArgs → Except String Bytes
  taSave : Bytes → Nat → Except String Bytes
  b64encode : Bytes → String
  unlinkFails : Nat → Bool

/-- The global `_models` dictionary (src/handler.py lines 54-58). -/
structure Cache where
  english : Option Model := none
  multilingual : Option Model := none
  voice_clone : Option Model := none
deriving DecidableEq, Repr

/-- The threaded process state: model cache, temp-file allocator and live
temp files, plus observation logs of load attempts, generate invocations
and whether the run reached the response-encoding step. -/
structure St where
  cache : Cache := {}
  nextTemp : Nat := 0
  files : List Nat := []
  loads : List Variant := []
  genCalls : List GenCall := []
  vcCalls : List VCArgs := []
  reachedEncoding : Bool := false
deriving DecidableEq, Repr

/-- The empty initial state (fresh process, nothing loaded, no files). -/
def st0 : St := {}

/-- Python truthiness of an optional string: None and the empty string are
falsy, every other string is truthy. -/
def pyTruthy : Option String → Bool
  | none => false
  | some s => s != ""

/-- The path string of the temp file with allocation id `n`. -/
def tempName (n : Nat) : String := "tmp" ++ toString n ++ ".wav"

/-- The cache slot of a variant. -/
def cacheOf (st : St) : Variant → Option Model
  | .english => st.cache.english
  | .multilingual => st.cache.multilingual
  | .voice_clone => st.cache.voice_clone

/-- Which variant `get_model` routes to, given its two parameters
(src/handler.py lines 62, 68, 74). -/
def routeVariant (language_id : Option String) (mode : String) : Variant :=
  if mode = "voice_clone" then .voice_clone
  else if language_id = none ∨ language_id = some "en" then .english
  else .multilingual

/-- The model-type string `get_model` returns for each variant. -/
def variantName : Variant → String
  | .english => "english"
  | .multilingual => "multilingual"
  | .voice_clone => "voice_clone"

/-- `get_model` (src/handler.py lines 60-79): lazily loads the routed
variant into the global cache and returns the cached handle together with
its model-type string.  A load attempt is logged in `St.loads` whether or
not the underlying `from_pretrained` call succeeds; on failure the
exception propagates and the cache slot stays empty (so a later call
retries). -/
def get_model (env : Env) (st : St) (language_id : Option String) (mode : String) :
    (Except String (Model × String)) × St :=
  if mode = "voice_clone" then
    match st.cache.voice_clone with
    | some m => (.ok (m, "voice_clone"), st)
    | none =>
      let st := { st with loads := st.loads ++ [Variant.voice_clone] }
      match env.loadModel .voice_clone with
      | .error e => (.error e, st)
      | .ok m =>
        (.ok (m, "voice_clone"),
         { st with cache := { st.cache with voice_clone := some m } })
  else if language_id = none ∨ language_id = some "en" then
    match st.cache.english with
    | some m => (.ok (m, "english"), st)
    | none =>
      let st := { st with loads := st.loads ++ [Variant.english] }
      match env.loadModel .english with
      | .error e => (.error e, st)
      | .ok m =>
        (.ok (m, "english"),
         { st with cache := { st.cache with english := some m } })
  else
    match st.cache.multilingual with
    | some m => (.ok (m, "multilingual"), st)
    | none =>
      let st := { st with loads := st.loads ++ [Variant.multilingual] }
      match env.loadModel .multilingual with
      | .error e => (.error e, st)
      | .ok m =>
        (.ok (m, "multilingual"),
         { st with cache := { st.cache with multilingual := some m } })

/-- `save_base64_to_temp_file` (src/handler.py lines 82-88): decodes the
base64 payload (raising on malformed input, before any file is created),
then writes it to a fresh temp file and returns the file id. -/
def save_base64_to_temp_file (env : Env) (st : St) (base64_data : String) :
    (Except String Nat) × St :=
  match env.b64decode base64_data with
  | .error e => (.error e, st)
  | .ok _audio_data =>
    (.ok st.nextTemp,
     { st with nextTemp := st.nextTemp + 1, files := st.files ++ [st.nextTemp] })

/-- One arm of the cleanup pattern in the `finally` blocks (src/handler.py
lines 196-202 and 256-263): if the path variable is set and the file still
exists, try to unlink it, ignoring any unlink error. -/
def cleanupTemp (env : Env) (st : St) : Option Nat → St
  | none => st
  | some p =>
    if p ∈ st.files then
      if env.unlinkFails p then st
      else { st with files := st.files.erase p }
    else st

/-- The body of the `try` block of `handle_tts` up to the filled wav
buffer (src/handler.py lines 142-172): build the keyword arguments (the
`language_id` keyword is passed exactly when the model type is
multilingual and `language_id` is truthy), invoke `model.generate`, then
`ta.save` the result into a buffer.  The invocation is logged before its
outcome; `reachedEncoding` is set once the buffer is ready. -/
def tts_generate (env : Env) (st : St) (model : Model) (model_type : String)
    (text : String) (language_id : Option String) (audio_prompt_path : Option String)
    (repetition_penalty min_p top_p exaggeration cfg_weight temperature : Rat) :
    (Except String (Bytes × Nat)) × St :=
  let args : GenArgs :=
    if model_type = "multilingual" ∧ pyTruthy language_id then
      { text := text, language_id := language_id,
        repetition_penalty := repetition_penalty, min_p := min_p, top_p := top_p,
        audio_prompt_path := audio_prompt_path, exaggeration := exaggeration,
        cfg_weight := cfg_weight, temperature := temperature }
    else
      { text := text, language_id := none,
        repetition_penalty := repetition_penalty, min_p := min_p, top_p := top_p,
        audio_prompt_path := audio_prompt_path, exaggeration := exaggeration,
        cfg_weight := cfg_weight, temperature := temperature }
  let st := { st with genCalls := st.genCalls ++ [⟨model_type, model, args⟩] }
  match env.generate model args with
  | .error e => (.error e, st)
  | .ok wav =>
    match env.taSave wav model.sr with
    | .error e => (.error e, st)
    | .ok buf => (.ok (buf, model.sr), { st with reachedEncoding := true })

/-- The response construction of `handle_tts` (src/handler.py lines
174-194): the base64 branch returns the audio payload with its metadata;
any other return format returns the not-implemented message with the same
metadata. -/
def encode_tts_response (env : Env) (return_format : String) (buf : Bytes) (sr : Nat)
    (language_id : Option String) (model_type : String)
    (voice_sample_base64 audio_prompt_path : Option String) : JobResponse :=
  if return_format = "base64" then
    { audio_base64 := some (env.b64encode buf), sample_rate := some sr,
      format := some "wav", language_id := some language_id,
      model_type := some model_type, mode := some "tts",
      voice_cloned := some (voice_sample_base64.isSome || audio_prompt_path.isSome) }
  else
    { message := some "URL format not implemented. Use base64.",
      sample_rate := some sr, language_id := some language_id,
      model_type := some model_type, mode := some "tts",
      voice_cloned := some (voice_sample_base64.isSome || audio_prompt_path.isSome) }

/-- The response construction of `handle_voice_clone` (src/handler.py
lines 238-254). -/
def encode_vc_response (env : Env) (return_format : String) (buf : Bytes) (sr : Nat)
    (model_type : String) : JobResponse :=
  if return_format = "base64" then
    { audio_base64 := some (env.b64encode buf), sample_rate := some sr,
      format := some "wav", model_type := some model_type,
      mode := some "voice_clone" }
  else
    { message := some "URL format not implemented. Use base64.",
      sample_rate := some sr, model_type := some model_type,
      mode := some "voice_clone" }

/-- The tail of `handle_tts` after the voice-sample step (src/handler.py
lines 133-202): read the numeric generation parameters with their fixed
defaults and the return format, run the `try` body, and apply the
`finally` cleanup of the voice-sample temp file on both exit paths before
the result (response or propagating exception) leaves the function. -/
def tts_rest (env : Env) (st : St) (job_input : JobInput) (model : Model)
    (model_type : String) (voice_sample_temp_path : Option Nat)
    (audio_prompt_path : Option String) : (Except String JobResponse) × St :=
  let text := job_input.text.getD ""
  let language_id := job_input.language_id
  let repetition_penalty := job_input.repetition_penalty.getD (1.2 : Rat)
  let min_p := job_input.min_p.getD (0.05 : Rat)
  let top_p := job_input.top_p.getD (1 : Rat)
  let exaggeration := job_input.exaggeration.getD (0.5 : Rat)
  let cfg_weight := job_input.cfg_weight.getD (0.5 : Rat)
  let temperature := job_input.temperature.getD (0.8 : Rat)
  let return_format := job_input.return_format.getD "base64"
  match tts_generate env st model model_type text language_id audio_prompt_path
      repetition_penalty min_p top_p exaggeration cfg_weight temperature with
  | (.error e, st) => (.error e, cleanupTemp env st voice_sample_temp_path)
  | (.ok (buf, sr), st) =>
    (.ok (encode_tts_response env return_format buf sr language_id model_type
        job_input.voice_sample_base64 audio_prompt_path),
     cleanupTemp env st voice_sample_temp_path)

/-- `handle_tts` (src/handler.py lines 106-202).  Empty or absent text
returns the error dict immediately.  Otherwise the model is fetched, an
optional truthy voice sample is materialised to a temp file (a decode
failure here is caught and returned as a field-naming error dict, before
any file exists) and becomes the audio prompt; with no truthy sample the
legacy `audio_prompt_path` field is used.  `tts_rest` finishes the job. -/
def handle_tts (env : Env) (st : St) (job_input : JobInput) :
    (Except String JobResponse) × St :=
  if pyTruthy job_input.text then
    match get_model env st job_input.language_id "tts" with
    | (.error e, st) => (.error e, st)
    | (.ok (model, model_type), st) =>
      if pyTruthy job_input.voice_sample_base64 then
        match save_base64_to_temp_file env st (job_input.voice_sample_base64.getD "") with
        | (.error e, st) =>
          (.ok (pureErr ("Invalid voice_sample_base64: " ++ e)), st)
        | (.ok p, st) =>
          tts_rest env st job_input model model_type (some p) (some (tempName p))
      else
        tts_rest env st job_input model model_type none job_input.audio_prompt_path
  else
    (.ok (pureErr "No text provided"), st)

/-- `handle_voice_clone` (src/handler.py lines 205-263).  Missing source
or target audio returns the naming error dict; both temp files are
materialised inside the `try` (a decode failure propagates as an
exception), generation and encoding follow, and the `finally` block
cleans source then target on every exit path. -/
def handle_voice_clone (env : Env) (st : St) (job_input : JobInput) :
    (Except String JobResponse) × St :=
  let source_audio_base64 := job_input.source_audio_base64
  let target_voice_base64 := job_input.target_voice_base64
  if pyTruthy source_audio_base64 then
    if pyTruthy target_voice_base64 then
      let return_format := job_input.return_format.getD "base64"
      match get_model env st none "voice_clone" with
      | (.error e, st) => (.error e, st)
      | (.ok (model, model_type), st) =>
        match save_base64_to_temp_file env st (source_audio_base64.getD "") with
        | (.error e, st) => (.error e, st)
        | (.ok sp, st) =>
          match save_base64_to_temp_file env st (target_voice_base64.getD "") with
          | (.error e, st) => (.error e, cleanupTemp env st (some sp))
          | (.ok tp, st) =>
            let args : VCArgs := { audio := tempName sp, target_voice_path := tempName tp }
            let st := { st with vcCalls := st.vcCalls ++ [args] }
            match env.generateVC model args with
            | .error e =>
              (.error e, cleanupTemp env (cleanupTemp env st (some sp)) (some tp))
            | .ok wav =>
              match env.taSave wav model.sr with
              | .error e =>
                (.error e, cleanupTemp env (cleanupTemp env st (some sp)) (some tp))
              | .ok buf =>
                let st := { st with reachedEncoding := true }
                (.ok (encode_vc_response env return_format buf model.sr model_type),
                 cleanupTemp env (cleanupTemp env st (some sp)) (some tp))
    else
      (.ok (pureErr "No target_voice_base64 provided"), st)
  else
    (.ok (pureErr "No source_audio_base64 provided"), st)

/-- The mode dispatch inside `handler` (src/handler.py lines 95-100):
mode defaults to "tts"; exactly the value "voice_clone" routes to the
voice-clone path, every other value routes to the TTS path. -/
def dispatch (env : Env) (st : St) (job_input : JobInput) :
    (Except String JobResponse) × St :=
  if job_input.mode.getD "tts" = "voice_clone" then
    handle_voice_clone env st job_input
  else
    handle_tts env st job_input

/-- `handler` (src/handler.py lines 91-103): the top-level boundary.  A
job without an "input" key makes `job["input"]` raise `KeyError("input")`,
whose `str` is the quoted key; every exception propagating out of the
dispatched sub-handler is caught and rendered as an error dict. -/
def handler (env : Env) (st : St) (job : Option JobInput) : JobResponse × St :=
  match job with
  | none => (pureErr "\x27input\x27", st)
  | some job_input =>
    match dispatch env st job_input with
    | (.ok r, st) => (r, st)
    | (.error e, st) => (pureErr e, st)

/-!
Interleaving model of concurrent `get_model` calls.  The english branch of
`get_model` (src/handler.py lines 68-73) performs three steps that are
separately atomic in CPython but not atomic together:
  check — read `_models["english"] is None` (line 70);
  load  — call `from_pretrained` and store it into the dict (line 72);
  ret   — re-read `_models["english"]` and return it (line 73).
Two invocations running these steps interleaved over the shared dict are
modelled by `raceRun`: a schedule lists which thread takes the next step.
`loadFn` gives the model object constructed by the n-th `from_pretrained`
call of the process; separate calls construct separate objects. -/

/-- Program counter of one thread running the english branch of `get_model`. -/
inductive RacePC
  | check
  | load
  | ret
  | done (m : Model)
deriving DecidableEq, Repr

/-- Shared dict slot, process-wide load count, and both thread positions. -/
structure RaceState where
  cache : Option Model := none
  loadCount : Nat := 0
  pc1 : RacePC := .check
  pc2 : RacePC := .check
deriving DecidableEq, Repr

/-- One atomic step of a single thread at the given program counter over
the shared cache slot. -/
def threadStep (loadFn : Nat → Model) (cache : Option Model) (cnt : Nat) :
    RacePC → RacePC × Option Model × Nat
  | .check =>
    match cache with
    | none => (.load, cache, cnt)
    | some _ => (.ret, cache, cnt)
  | .load => (.ret, some (loadFn cnt), cnt + 1)
  | .ret =>
    match cache with
    | some m => (.done m, cache, cnt)
    | none => (.ret, cache, cnt)
  | .done m => (.done m, cache, cnt)

/-- Advance the scheduled thread (false = thread 1, true = thread 2). -/
def raceStep (loadFn : Nat → Model) (s : RaceState) (tid : Bool) : RaceState :=
  if tid then
    let (pc, c, n) := threadStep loadFn s.cache s.loadCount s.pc2
    { s with pc2 := pc, cache := c, loadCount := n }
  else
    let (pc, c, n) := threadStep loadFn s.cache s.loadCount s.pc1
    { s with pc1 := pc, cache := c, loadCount := n }

/-- Run a schedule from the fresh-process state. -/
def raceRun (loadFn : Nat → Model) (sched : List Bool) : RaceState :=
  sched.foldl (raceStep loadFn) {}

/-- Distinct model objects for successive `from_pretrained` calls. -/
def raceLoadFn (n : Nat) : Model := ⟨100 + n, 24000⟩

/-!  Concrete oracle environments used by witnesses and counterexamples. -/

/-- An environment in which every collaborator succeeds, except that the
base64 decoder rejects the literal string used as the malformed payload in
counterexamples. -/
def okEnv : Env where
  b64decode := fun s => if s = "!!!not-base64!!!" then .error "bad padding" else .ok [0, 1]
  loadModel := fun v =>
    .ok ⟨(match v with | .english => 1 | .multilingual => 2 | .voice_clone => 3), 24000⟩
  generate := fun _ _ => .ok [7]
  generateVC := fun _ _ => .ok [8]
  taSave := fun b _ => .ok b
  b64encode := fun _ => "QUFB"
  unlinkFails := fun _ => false

/-! Helper lemmas about the component functions. -/

/-- Cleanup of an unset path variable does nothing. -/
theorem cleanupTemp_none (env : Env) (st : St) : cleanupTemp env st none = st := rfl

/-- Cleanup of an existing file with a working unlink removes it. -/
theorem cleanupTemp_erase (env : Env) (st : St) (p : Nat)
    (hin : p ∈ st.files) (hu : env.unlinkFails p = false) :
    cleanupTemp env st (some p) = { st with files := st.files.erase p } := by
  simp [cleanupTemp, hin, hu]

/-- Cleanup touches only the file list. -/
theorem cleanupTemp_only_files (env : Env) (st : St) (o : Option Nat) :
    cleanupTemp env st o = { st with files := (cleanupTemp env st o).files } := by
  unfold cleanupTemp
  match o with
  | none => rfl
  | some p => dsimp only; split <;> [split <;> rfl; rfl]

/-- `get_model` touches only the cache and load log. -/
theorem get_model_preserves (env : Env) (st : St) (lid : Option String) (mode : String) :
    (get_model env st lid mode).2.nextTemp = st.nextTemp ∧
    (get_model env st lid mode).2.files = st.files ∧
    (get_model env st lid mode).2.genCalls = st.genCalls ∧
    (get_model env st lid mode).2.vcCalls = st.vcCalls ∧
    (get_model env st lid mode).2.reachedEncoding = st.reachedEncoding := by
  unfold get_model
  split
  · split
    · simp
    · split <;> simp
  · split
    · split
      · simp
      · split <;> simp
    · split
      · simp
      · split <;> simp

/-- A successful temp-file save allocates exactly the next id. -/
theorem save_b64_ok (env : Env) (st : St) (s : String) (p : Nat) (st1 : St)
    (h : save_base64_to_temp_file env st s = (.ok p, st1)) :
    p = st.nextTemp ∧
    st1 = { st with nextTemp := st.nextTemp + 1, files := st.files ++ [st.nextTemp] } := by
  unfold save_base64_to_temp_file at h
  split at h
  · simp at h
  · injection h with h1 h2
    injection h1 with h1
    subst h1 h2
    exact ⟨rfl, rfl⟩

/-- A failed temp-file save is a decode failure and creates nothing. -/
theorem save_b64_error (env : Env) (st : St) (s : String) (e : String) (st1 : St)
    (h : save_base64_to_temp_file env st s = (.error e, st1)) :
    st1 = st ∧ env.b64decode s = .error e := by
  unfold save_base64_to_temp_file at h
  split at h <;> simp_all

/-- The TTS generation body touches only the generate log and the
encoding flag. -/
theorem tts_generate_preserves (env : Env) (st : St) (model : Model) (mt text : String)
    (lid app : Option String) (rp mp tp ex cw tm : Rat) :
    (tts_generate env st model mt text lid app rp mp tp ex cw tm).2.nextTemp = st.nextTemp ∧
    (tts_generate env st model mt text lid app rp mp tp ex cw tm).2.files = st.files ∧
    (tts_generate env st model mt text lid app rp mp tp ex cw tm).2.cache = st.cache ∧
    (tts_generate env st model mt text lid app rp mp tp ex cw tm).2.loads = st.loads := by
  unfold tts_generate
  dsimp only
  split <;> [simp; (split <;> simp)]

/-- A failing TTS generation body leaves the encoding flag unchanged. -/
theorem tts_generate_error_flag (env : Env) (st : St) (model : Model) (mt text : String)
    (lid app : Option String) (rp mp tp ex cw tm : Rat) (e : String) (st1 : St)
    (h : tts_generate env st model mt text lid app rp mp tp ex cw tm = (.error e, st1)) :
    st1.reachedEncoding = st.reachedEncoding := by
  unfold tts_generate at h
  dsimp only at h
  split at h
  · injection h with h1 h2; subst h2; rfl
  · split at h
    · injection h with h1 h2; subst h2; rfl
    · simp at h

/-- Where an error message escaping to the handler boundary can come
from: one of the fixed literal messages of src/handler.py, a decode
failure (raw, or wrapped in the voice-sample field-naming message), or an
exception of one of the other collaborators. -/
def errFrom (env : Env) (e : String) : Prop :=
  e = "No text provided" ∨ e = "No source_audio_base64 provided" ∨
  e = "No target_voice_base64 provided" ∨ e = "\x27input\x27" ∨
  (∃ s d, env.b64decode s = .error d ∧
    (e = d ∨ e = "Invalid voice_sample_base64: " ++ d)) ∨
  (∃ v, env.loadModel v = .error e) ∨
  (∃ m a, env.generate m a = .error e) ∨
  (∃ m a, env.generateVC m a = .error e) ∨
  (∃ b n, env.taSave b n = .error e)

/-- A failing `get_model` is a failing model load. -/
theorem get_model_error_src (env : Env) (st : St) (lid : Option String) (mode : String)
    (e : String) (st1 : St) (h : get_model env st lid mode = (.error e, st1)) :
    ∃ v, env.loadModel v = .error e := by
  unfold get_model at h
  split at h
  · split at h
    · simp at h
    · split at h
      · exact ⟨_, by injection h with h1 _; injection h1 with h1; rw [← h1]; assumption⟩
      · simp at h
  · split at h
    · split at h
      · simp at h
      · split at h
        · exact ⟨_, by injection h with h1 _; injection h1 with h1; rw [← h1]; assumption⟩
        · simp at h
    · split at h
      · simp at h
      · split at h
        · exact ⟨_, by injection h with h1 _; injection h1 with h1; rw [← h1]; assumption⟩
        · simp at h

/-- A failing TTS generation body is a failing generate or save call. -/
theorem tts_generate_error_src (env : Env) (st : St) (model : Model) (mt text : String)
    (lid app : Option String) (rp mp tp ex cw tm : Rat) (e : String) (st1 : St)
    (h : tts_generate env st model mt text lid app rp mp tp ex cw tm = (.error e, st1)) :
    (∃ m a, env.generate m a = .error e) ∨ (∃ b n, env.taSave b n = .error e) := by
  unfold tts_generate at h
  dsimp only at h
  split at h
  · exact .inl ⟨_, _, by injection h with h1 _; injection h1 with h1; rw [← h1]; assumption⟩
  · split at h
    · exact .inr ⟨_, _, by injection h with h1 _; injection h1 with h1; rw [← h1]; assumption⟩
    · simp at h

/-- Every outcome of `tts_rest` is a propagating exception from the
generation body or a successful encode. -/
theorem tts_rest_form (env : Env) (st : St) (j : JobInput) (model : Model)
    (mt : String) (vstp : Option Nat) (app : Option String)
    (res : Except String JobResponse) (st1 : St)
    (h : tts_rest env st j model mt vstp app = (res, st1)) :
    (∃ e, res = .error e ∧
      ((∃ m a, env.generate m a = .error e) ∨ (∃ b n, env.taSave b n = .error e))) ∨
    (∃ buf sr, res = .ok (encode_tts_response env (j.return_format.getD "base64")
        buf sr j.language_id mt j.voice_sample_base64 app)) := by
  unfold tts_rest at h
  dsimp only at h
  split at h
  · rename_i e stx heq
    injection h with h1 h2
    subst h1
    exact .inl ⟨e, rfl, tts_generate_error_src _ _ _ _ _ _ _ _ _ _ _ _ _ _ _ heq⟩
  · injection h with h1 h2
    subst h1
    exact .inr ⟨_, _, rfl⟩

/-- Every outcome of `handle_tts` is a pure error dict (with a message of
the forms produced here), a successful TTS encode, or a propagating
exception traceable to a collaborator. -/
theorem handle_tts_form (env : Env) (st : St) (j : JobInput)
    (res : Except String JobResponse) (st1 : St)
    (h : handle_tts env st j = (res, st1)) :
    (∃ e, res = .error e ∧ errFrom env e) ∨
    res = .ok (pureErr "No text provided") ∨
    (∃ d s, env.b64decode s = .error d ∧
      res = .ok (pureErr ("Invalid voice_sample_base64: " ++ d))) ∨
    (∃ rf buf sr mt app,
      res = .ok (encode_tts_response env rf buf sr j.language_id mt
        j.voice_sample_base64 app)) := by
  unfold handle_tts at h
  split at h
  · split at h
    · rename_i e stx heq
      injection h with h1 h2
      subst h1
      exact .inl ⟨e, rfl, .inr <| .inr <| .inr <| .inr <| .inr <| .inl
        (get_model_error_src _ _ _ _ _ _ heq)⟩
    · split at h
      · split at h
        · rename_i e stx heq
          injection h with h1 h2
          subst h1
          obtain ⟨-, hdec⟩ := save_b64_error _ _ _ _ _ heq
          exact .inr <| .inr <| .inl ⟨e, _, hdec, rfl⟩
        · rcases tts_rest_form _ _ _ _ _ _ _ _ _ h with ⟨e, he, hsrc⟩ | ⟨buf, sr, hok⟩
          · exact .inl ⟨e, he, by
              rcases hsrc with h1 | h1
              · exact .inr <| .inr <| .inr <| .inr <| .inr <| .inr <| .inl h1
              · exact .inr <| .inr <| .inr <| .inr <| .inr <| .inr <| .inr <| .inr h1⟩
          · exact .inr <| .inr <| .inr ⟨_, buf, sr, _, _, hok⟩
      · rcases tts_rest_form _ _ _ _ _ _ _ _ _ h with ⟨e, he, hsrc⟩ | ⟨buf, sr, hok⟩
        · exact .inl ⟨e, he, by
            rcases hsrc with h1 | h1
            · exact .inr <| .inr <| .inr <| .inr <| .inr <| .inr <| .inl h1
            · exact .inr <| .inr <| .inr <| .inr <| .inr <| .inr <| .inr <| .inr h1⟩
        · exact .inr <| .inr <| .inr ⟨_, buf, sr, _, _, hok⟩
  · injection h with h1 h2
    subst h1
    exact .inr (.inl rfl)

/-- Every outcome of `handle_voice_clone` is a pure error dict with one of
the two missing-field messages, a successful VC encode, or a propagating
exception traceable to a collaborator. -/
theorem handle_vc_form (env : Env) (st : St) (j : JobInput)
    (res : Except String JobResponse) (st1 : St)
    (h : handle_voice_clone env st j = (res, st1)) :
    (∃ e, res = .error e ∧ errFrom env e) ∨
    res = .ok (pureErr "No source_audio_base64 provided") ∨
    res = .ok (pureErr "No target_voice_base64 provided") ∨
    (∃ rf buf sr mt, res = .ok (encode_vc_response env rf buf sr mt)) := by
  unfold handle_voice_clone at h
  dsimp only at h
  split at h
  · split at h
    · split at h
      · rename_i e stx heq
        injection h with h1 h2
        subst h1
        exact .inl ⟨e, rfl, .inr <| .inr <| .inr <| .inr <| .inr <| .inl
          (get_model_error_src _ _ _ _ _ _ heq)⟩
      · split at h
        · rename_i e stx heq
          injection h with h1 h2
          subst h1
          obtain ⟨-, hdec⟩ := save_b64_error _ _ _ _ _ heq
          exact .inl ⟨e, rfl, .inr <| .inr <| .inr <| .inr <| .inl ⟨_, e, hdec, .inl rfl⟩⟩
        · split at h
          · rename_i e stx heq
            injection h with h1 h2
            subst h1
            obtain ⟨-, hdec⟩ := save_b64_error _ _ _ _ _ heq
            exact .inl ⟨e, rfl, .inr <| .inr <| .inr <| .inr <| .inl ⟨_, e, hdec, .inl rfl⟩⟩
          · split at h
            · rename_i e heq
              injection h with h1 h2
              subst h1
              exact .inl ⟨e, rfl,
                .inr <| .inr <| .inr <| .inr <| .inr <| .inr <| .inr <| .inl ⟨_, _, heq⟩⟩
            · split at h
              · rename_i e heq
                injection h with h1 h2
                subst h1
                exact .inl ⟨e, rfl,
                  .inr <| .inr <| .inr <| .inr <| .inr <| .inr <| .inr <| .inr ⟨_, _, heq⟩⟩
              · injection h with h1 h2
                subst h1
                exact .inr <| .inr <| .inr ⟨_, _, _, _, rfl⟩
    · injection h with h1 h2
      subst h1
      exact .inr <| .inr <| .inl rfl
  · injection h with h1 h2
    subst h1
    exact .inr (.inl rfl)

/-- The `voice_cloned` flag of a successful TTS encode reflects exactly
the voice-sample field and the final audio prompt path. -/
theorem tts_rest_voice_cloned (env : Env) (st : St) (j : JobInput) (model : Model)
    (mt : String) (vstp : Option Nat) (app : Option String) (r : JobResponse) (st1 : St)
    (b : Bool) (h : tts_rest env st j model mt vstp app = (.ok r, st1))
    (hb : r.voice_cloned = some b) :
    b = (j.voice_sample_base64.isSome || app.isSome) := by
  unfold tts_rest at h
  dsimp only at h
  split at h
  · simp at h
  · injection h with h1 h2
    injection h1 with h1
    subst h1
    unfold encode_tts_response at hb
    split at hb <;> simp_all

/-- Voice-clone responses never carry a `voice_cloned` field. -/
theorem handle_vc_no_voice_cloned (env : Env) (st : St) (j : JobInput)
    (r : JobResponse) (st1 : St) (h : handle_voice_clone env st j = (.ok r, st1)) :
    r.voice_cloned = none := by
  rcases handle_vc_form env st j (.ok r) st1 h with ⟨e, he, -⟩ | he | he | ⟨rf, buf, sr, mt, he⟩
  · simp at he
  · injection he with he; subst he; rfl
  · injection he with he; subst he; rfl
  · injection he with he
    subst he
    unfold encode_vc_response
    split <;> rfl

/-- `voice_cloned` in a successful TTS response, at the `handle_tts`
level: it equals field-presence of `voice_sample_base64` or of the legacy
`audio_prompt_path`. -/
theorem handle_tts_voice_cloned (env : Env) (st : St) (j : JobInput)
    (r : JobResponse) (st1 : St) (b : Bool)
    (h : handle_tts env st j = (.ok r, st1)) (hb : r.voice_cloned = some b) :
    b = (j.voice_sample_base64.isSome || j.audio_prompt_path.isSome) := by
  unfold handle_tts at h
  split at h
  · split at h
    · simp at h
    · split at h
      · rename_i htr
        split at h
        · injection h with h1 h2
          injection h1 with h1
          subst h1
          simp [pureErr] at hb
        · have hres := tts_rest_voice_cloned _ _ _ _ _ _ _ _ _ _ h hb
          match hj : j.voice_sample_base64 with
          | none => rw [hj] at htr; simp [pyTruthy] at htr
          | some s => rw [hj] at hres; simp at hres ⊢; exact hres
      · exact tts_rest_voice_cloned _ _ _ _ _ _ _ _ _ _ h hb
  · injection h with h1 h2
    injection h1 with h1
    subst h1
    simp [pureErr] at hb

/-- C1: the top-level handler never raises past its boundary.  It is a
total function into `JobResponse`; any response carrying an `error` key
carries nothing else; and whenever the dispatched sub-handler lets an
exception escape, the handler returns exactly the error-only dict built
from that exception, so failure is signalled through no other channel. -/
theorem handler_never_raises (env : Env) (st : St) (job : Option JobInput)
    (r : JobResponse) (st1 : St) (h : handler env st job = (r, st1)) :
    (∀ e, r.error = some e → r = pureErr e) ∧
    (∀ j, job = some j → ∀ e st2, dispatch env st j = (.error e, st2) →
      (r, st1) = (pureErr e, st2)) := by
  constructor
  · intro e he
    match job with
    | none =>
      unfold handler at h
      dsimp only at h
      injection h with h1 h2
      subst h1
      simp [pureErr] at he ⊢
      simpa [pureErr] using he
    | some j =>
      unfold handler at h
      dsimp only at h
      rcases hd : dispatch env st j with ⟨res, st2⟩
      rw [hd] at h
      match res with
      | .error e2 =>
        injection h with h1 h2
        subst h1
        simp only [pureErr] at he
        injection he with he
        simp [pureErr, he]
      | .ok r2 =>
        injection h with h1 h2
        subst h1
        unfold dispatch at hd
        split at hd
        · rcases handle_vc_form env st j (.ok r2) st2 hd with
            ⟨e2, he2, -⟩ | he2 | he2 | ⟨rf, buf, sr, mt, he2⟩
          · simp at he2
          · injection he2 with he2; subst he2; simp only [pureErr] at he; injection he with he
            simp [pureErr, ← he]
          · injection he2 with he2; subst he2; simp only [pureErr] at he; injection he with he
            simp [pureErr, ← he]
          · injection he2 with he2
            subst he2
            unfold encode_vc_response at he
            split at he <;> simp at he
        · rcases handle_tts_form env st j (.ok r2) st2 hd with
            ⟨e2, he2, -⟩ | he2 | ⟨d, s, hdec, he2⟩ | ⟨rf, buf, sr, mt, app, he2⟩
          · simp at he2
          · injection he2 with he2; subst he2; simp only [pureErr] at he; injection he with he
            simp [pureErr, ← he]
          · injection he2 with he2; subst he2; simp only [pureErr] at he; injection he with he
            simp [pureErr, ← he]
          · injection he2 with he2
            subst he2
            unfold encode_tts_response at he
            split at he <;> simp at he
  · intro j hj e st2 hd
    subst hj
    unfold handler at h
    dsimp only at h
    rw [hd] at h
    exact h.symm

/-- Witness for C1: at a concrete malformed job (missing "input" key),
the handler returns the pure error dict for the KeyError. -/
theorem handler_never_raises_witness :
    handler okEnv st0 none = (pureErr "\x27input\x27", st0) ∧
    pureErr "\x27input\x27" = pureErr "\x27input\x27" :=
  ⟨by decide, (handler_never_raises okEnv st0 none (pureErr "\x27input\x27") st0
      (by decide)).1 "\x27input\x27" (by decide)⟩

/-- C5: whenever a handler response carries the `voice_cloned` field (the
successful TTS responses, base64 or url), its value is true exactly when a
voice-conditioning prompt was supplied, via `voice_sample_base64` or the
legacy `audio_prompt_path` field. -/
theorem voice_cloned_iff_prompt (env : Env) (st : St) (j : JobInput) (b : Bool)
    (hb : (handler env st (some j)).1.voice_cloned = some b) :
    b = (j.voice_sample_base64.isSome || j.audio_prompt_path.isSome) := by
  rcases hd : dispatch env st j with ⟨res, st2⟩
  unfold handler at hb
  dsimp only at hb
  rw [hd] at hb
  match res with
  | .error e =>
    simp only [pureErr] at hb
    cases hb
  | .ok r =>
    simp only at hb
    unfold dispatch at hd
    split at hd
    · rw [handle_vc_no_voice_cloned env st j r st2 hd] at hb
      cases hb
    · exact handle_tts_voice_cloned env st j r st2 b hd hb

/-- Witness for C5: with a voice sample supplied, the concrete run reports
`voice_cloned = true`, and the theorem evaluates the right-hand side to
the same value. -/
theorem voice_cloned_iff_prompt_witness :
    (handler okEnv st0 (some { text := some "hi", voice_sample_base64 := some "QQ==" })).1.voice_cloned
      = some true ∧
    true = ((some "QQ==" : Option String).isSome || (none : Option String).isSome) :=
  ⟨by decide, voice_cloned_iff_prompt okEnv st0
      { text := some "hi", voice_sample_base64 := some "QQ==" } true (by decide)⟩

/-- C7: a request routed to the TTS path with empty or absent text gets
exactly the "No text provided" error dict, with the process state — in
particular the model cache and the load log — untouched: no model load is
attempted. -/
theorem no_text_short_circuit (env : Env) (st : St) (j : JobInput)
    (hm : j.mode.getD "tts" ≠ "voice_clone")
    (ht : pyTruthy j.text = false) :
    handler env st (some j) = (pureErr "No text provided", st) := by
  unfold handler dispatch handle_tts
  dsimp only
  rw [if_neg hm, ht]
  simp

/-- Witness for C7 at a concrete request with mode "tts" and absent text. -/
theorem no_text_short_circuit_witness :
    (({ mode := some "tts" } : JobInput).mode.getD "tts" ≠ "voice_clone") ∧
    pyTruthy ({ mode := some "tts" } : JobInput).text = false ∧
    handler okEnv st0 (some { mode := some "tts" }) = (pureErr "No text provided", st0) :=
  ⟨by decide, by decide,
   no_text_short_circuit okEnv st0 { mode := some "tts" } (by decide) (by decide)⟩

/-- C10: a job whose mode field is absent, or equal to any string other
than "voice_clone", is dispatched down the TTS path; an unrecognized mode
is never rejected as such. -/
theorem unknown_mode_goes_tts (env : Env) (st : St) (j : JobInput)
    (hm : j.mode.getD "tts" ≠ "voice_clone") :
    handler env st (some j) =
      (match handle_tts env st j with
       | (.ok r, st1) => (r, st1)
       | (.error e, st1) => (pureErr e, st1)) := by
  unfold handler dispatch
  dsimp only
  rw [if_neg hm]

/-- Witness for C10 at the concrete unrecognized mode "xyz". -/
theorem unknown_mode_goes_tts_witness :
    (({ mode := some "xyz", text := some "hi" } : JobInput).mode.getD "tts" ≠ "voice_clone") ∧
    handler okEnv st0 (some { mode := some "xyz", text := some "hi" }) =
      (match handle_tts okEnv st0 { mode := some "xyz", text := some "hi" } with
       | (.ok r, st1) => (r, st1)
       | (.error e, st1) => (pureErr e, st1)) :=
  ⟨by decide,
   unknown_mode_goes_tts okEnv st0 { mode := some "xyz", text := some "hi" } (by decide)⟩

/-- Unfolding of the handler on a job that does have an "input" value. -/
theorem handler_some (env : Env) (st : St) (j : JobInput) :
    handler env st (some j) =
      match dispatch env st j with
      | (.ok r, st1) => (r, st1)
      | (.error e, st1) => (pureErr e, st1) := rfl

/-- Dispatch on a mode equal to "voice_clone". -/
theorem dispatch_vc (env : Env) (st : St) (j : JobInput)
    (h : j.mode.getD "tts" = "voice_clone") :
    dispatch env st j = handle_voice_clone env st j := by
  unfold dispatch; rw [if_pos h]

/-- Dispatch on any other mode. -/
theorem dispatch_tts (env : Env) (st : St) (j : JobInput)
    (h : j.mode.getD "tts" ≠ "voice_clone") :
    dispatch env st j = handle_tts env st j := by
  unfold dispatch; rw [if_neg h]

/-- A malformed voice sample on the TTS path is caught inside
`handle_tts` and rendered as the field-naming error dict, before any temp
file is created. -/
theorem handle_tts_invalid_sample (env : Env) (st : St) (j : JobInput) (e : String)
    (m : Model) (mt : String) (st1 : St)
    (htext : pyTruthy j.text = true)
    (hsample : pyTruthy j.voice_sample_base64 = true)
    (hget : get_model env st j.language_id "tts" = (.ok (m, mt), st1))
    (hdec : env.b64decode (j.voice_sample_base64.getD "") = .error e) :
    handle_tts env st j = (.ok (pureErr ("Invalid voice_sample_base64: " ++ e)), st1) := by
  simp [handle_tts, htext, hsample, hget, save_base64_to_temp_file, hdec]

/-- A malformed source payload on the voice-clone path raises out of
`handle_voice_clone` with the raw decoder message, before any temp file
is created. -/
theorem handle_vc_source_decode_error (env : Env) (st : St) (j : JobInput) (e : String)
    (m : Model) (mt : String) (st1 : St)
    (hs : pyTruthy j.source_audio_base64 = true)
    (ht : pyTruthy j.target_voice_base64 = true)
    (hget : get_model env st none "voice_clone" = (.ok (m, mt), st1))
    (hdec : env.b64decode (j.source_audio_base64.getD "") = .error e) :
    handle_voice_clone env st j = (.error e, st1) := by
  simp [handle_voice_clone, hs, ht, hget, save_base64_to_temp_file, hdec]

/-- A malformed target payload on the voice-clone path raises with the
raw decoder message after the source temp file was created; the `finally`
block then cleans that file. -/
theorem handle_vc_target_decode_error (env : Env) (st : St) (j : JobInput) (e : String)
    (m : Model) (mt : String) (st1 : St) (bs : Bytes)
    (hs : pyTruthy j.source_audio_base64 = true)
    (ht : pyTruthy j.target_voice_base64 = true)
    (hget : get_model env st none "voice_clone" = (.ok (m, mt), st1))
    (hsrc : env.b64decode (j.source_audio_base64.getD "") = .ok bs)
    (hdec : env.b64decode (j.target_voice_base64.getD "") = .error e) :
    handle_voice_clone env st j =
      (.error e, cleanupTemp env
        { st1 with nextTemp := st1.nextTemp + 1, files := st1.files ++ [st1.nextTemp] }
        (some st1.nextTemp)) := by
  simp [handle_voice_clone, hs, ht, hget, save_base64_to_temp_file, hsrc, hdec]

/-- The concrete voice-clone job of the C2 counterexample: malformed
source payload, well-formed target payload. -/
def jobBadSource : JobInput :=
  { mode := some "voice_clone", source_audio_base64 := some "!!!not-base64!!!", target_voice_base64 := some "QQ==" }

/-- C2 counterexample: feeding invalid base64 as `source_audio_base64`
with a valid `target_voice_base64` yields the raw decoder message as the
error string — too short to be of the claimed form
"Invalid source_audio_base64: ..." — though no temp file leaks. -/
theorem invalid_source_not_named :
    (handler okEnv st0 (some jobBadSource)).1 = pureErr "bad padding" ∧
    "bad padding".length < "Invalid source_audio_base64: ".length ∧
    (handler okEnv st0 (some jobBadSource)).2.files = [] :=
  ⟨by decide, by decide, by decide⟩

/-- C2 amended: a malformed `voice_sample_base64` yields an error naming
that field; a malformed `source_audio_base64` or `target_voice_base64`
yields an error response carrying the raw decoder message (the field is
not named); in every case no temp file created during the invocation
survives it (given a working unlink and fresh temp names). -/
theorem invalid_base64_behaviour (env : Env) (st : St) (j : JobInput) (e : String)
    (bs : Bytes) :
    (pyTruthy j.text = true → j.mode.getD "tts" ≠ "voice_clone" →
      pyTruthy j.voice_sample_base64 = true →
      env.b64decode (j.voice_sample_base64.getD "") = .error e →
      ∀ m mt st1, get_model env st j.language_id "tts" = (.ok (m, mt), st1) →
        handler env st (some j) = (pureErr ("Invalid voice_sample_base64: " ++ e), st1)
        ∧ st1.files = st.files) ∧
    (j.mode.getD "tts" = "voice_clone" →
      pyTruthy j.source_audio_base64 = true → pyTruthy j.target_voice_base64 = true →
      env.b64decode (j.source_audio_base64.getD "") = .error e →
      ∀ m mt st1, get_model env st none "voice_clone" = (.ok (m, mt), st1) →
        handler env st (some j) = (pureErr e, st1) ∧ st1.files = st.files) ∧
    (j.mode.getD "tts" = "voice_clone" →
      pyTruthy j.source_audio_base64 = true → pyTruthy j.target_voice_base64 = true →
      env.b64decode (j.source_audio_base64.getD "") = .ok bs →
      env.b64decode (j.target_voice_base64.getD "") = .error e →
      st.nextTemp ∉ st.files → env.unlinkFails st.nextTemp = false →
      ∀ m mt st1, get_model env st none "voice_clone" = (.ok (m, mt), st1) →
        (handler env st (some j)).1 = pureErr e ∧
        (handler env st (some j)).2.files = st.files) := by
  obtain ⟨hnt, hfl, -, -, -⟩ := get_model_preserves env st j.language_id "tts"
  obtain ⟨hnt2, hfl2, -, -, -⟩ := get_model_preserves env st none "voice_clone"
  refine ⟨?_, ?_, ?_⟩
  · intro htext hmode hsample hdec m mt st1 hget
    rw [handler_some, dispatch_tts env st j hmode,
        handle_tts_invalid_sample env st j e m mt st1 htext hsample hget hdec]
    rw [hget] at hfl
    exact ⟨rfl, hfl⟩
  · intro hmode hs ht hdec m mt st1 hget
    rw [handler_some, dispatch_vc env st j hmode,
        handle_vc_source_decode_error env st j e m mt st1 hs ht hget hdec]
    rw [hget] at hfl2
    exact ⟨rfl, hfl2⟩
  · intro hmode hs ht hsrc hdec hfresh hunlink m mt st1 hget
    rw [handler_some, dispatch_vc env st j hmode,
        handle_vc_target_decode_error env st j e m mt st1 bs hs ht hget hsrc hdec]
    rw [hget] at hfl2 hnt2
    have hfl3 : st1.files = st.files := hfl2
    have hnt3 : st1.nextTemp = st.nextTemp := hnt2
    constructor
    · rfl
    · show (cleanupTemp env _ (some st1.nextTemp)).files = st.files
      rw [cleanupTemp_erase env _ st1.nextTemp (by simp) (by rw [hnt3]; exact hunlink)]
      show (st1.files ++ [st1.nextTemp]).erase st1.nextTemp = st.files
      rw [List.erase_append_right _ (by rw [hfl3, hnt3]; exact hfresh)]
      simp [hfl3]

/-- Witness for C2 amended, exercising part (b) at a concrete request:
the invalid source payload yields the raw decoder message. -/
theorem invalid_base64_behaviour_witness :
    (jobBadSource.mode.getD "tts" = "voice_clone") ∧
    handler okEnv st0 (some jobBadSource) =
      (pureErr "bad padding", (get_model okEnv st0 none "voice_clone").2) ∧
    (get_model okEnv st0 none "voice_clone").2.files = st0.files :=
  ⟨by decide,
   ((invalid_base64_behaviour okEnv st0 jobBadSource "bad padding" []).2.1
     (by decide) (by decide) (by decide) (by decide) ⟨3, 24000⟩ "voice_clone"
     (get_model okEnv st0 none "voice_clone").2 (by decide)).1,
   ((invalid_base64_behaviour okEnv st0 jobBadSource "bad padding" []).2.1
     (by decide) (by decide) (by decide) (by decide) ⟨3, 24000⟩ "voice_clone"
     (get_model okEnv st0 none "voice_clone").2 (by decide)).2⟩

/-- The three routing configurations of `get_model`. -/
theorem routeVariant_cases (lid : Option String) (mode : String) :
    (mode = "voice_clone" ∧ routeVariant lid mode = .voice_clone) ∨
    (mode ≠ "voice_clone" ∧ (lid = none ∨ lid = some "en") ∧
      routeVariant lid mode = .english) ∨
    (mode ≠ "voice_clone" ∧ ¬(lid = none ∨ lid = some "en") ∧
      routeVariant lid mode = .multilingual) := by
  unfold routeVariant
  split_ifs with h1 h2
  · exact .inl ⟨h1, rfl⟩
  · exact .inr (.inl ⟨h1, h2, rfl⟩)
  · exact .inr (.inr ⟨h1, h2, rfl⟩)

/-- Cache hit for the voice-clone variant. -/
theorem get_model_hit_vc (env : Env) (st : St) (lid : Option String) (m : Model)
    (h : st.cache.voice_clone = some m) :
    get_model env st lid "voice_clone" = (.ok (m, "voice_clone"), st) := by
  simp [get_model, h]

/-- First load of the voice-clone variant. -/
theorem get_model_load_vc (env : Env) (st : St) (lid : Option String) (m : Model)
    (he : st.cache.voice_clone = none) (hl : env.loadModel .voice_clone = .ok m) :
    get_model env st lid "voice_clone" =
      (.ok (m, "voice_clone"),
       { st with loads := st.loads ++ [Variant.voice_clone],
                 cache := { st.cache with voice_clone := some m } }) := by
  simp [get_model, he, hl]

/-- Cache hit for the english variant. -/
theorem get_model_hit_en (env : Env) (st : St) (lid : Option String) (mode : String)
    (m : Model) (hm : mode ≠ "voice_clone") (hlid : lid = none ∨ lid = some "en")
    (h : st.cache.english = some m) :
    get_model env st lid mode = (.ok (m, "english"), st) := by
  unfold get_model
  rw [if_neg hm, if_pos hlid, h]

/-- First load of the english variant. -/
theorem get_model_load_en (env : Env) (st : St) (lid : Option String) (mode : String)
    (m : Model) (hm : mode ≠ "voice_clone") (hlid : lid = none ∨ lid = some "en")
    (he : st.cache.english = none) (hl : env.loadModel .english = .ok m) :
    get_model env st lid mode =
      (.ok (m, "english"),
       { st with loads := st.loads ++ [Variant.english],
                 cache := { st.cache with english := some m } }) := by
  unfold get_model
  rw [if_neg hm, if_pos hlid, he]
  dsimp only
  rw [hl]

/-- Cache hit for the multilingual variant. -/
theorem get_model_hit_ml (env : Env) (st : St) (lid : Option String) (mode : String)
    (m : Model) (hm : mode ≠ "voice_clone") (hlid : ¬(lid = none ∨ lid = some "en"))
    (h : st.cache.multilingual = some m) :
    get_model env st lid mode = (.ok (m, "multilingual"), st) := by
  unfold get_model
  rw [if_neg hm, if_neg hlid, h]

/-- First load of the multilingual variant. -/
theorem get_model_load_ml (env : Env) (st : St) (lid : Option String) (mode : String)
    (m : Model) (hm : mode ≠ "voice_clone") (hlid : ¬(lid = none ∨ lid = some "en"))
    (he : st.cache.multilingual = none) (hl : env.loadModel .multilingual = .ok m) :
    get_model env st lid mode =
      (.ok (m, "multilingual"),
       { st with loads := st.loads ++ [Variant.multilingual],
                 cache := { st.cache with multilingual := some m } }) := by
  unfold get_model
  rw [if_neg hm, if_neg hlid, he]
  dsimp only
  rw [hl]

/-- C3 counterexample: interleaving two concurrent first calls for the
english variant as T1-check, T2-check, T1-load, T1-return, T2-load,
T2-return performs two underlying loads in one process, and the two
callers return different model objects — the claimed single-flight
behaviour does not hold for the unsynchronized cache. -/
theorem concurrent_double_load :
    (raceRun raceLoadFn [false, true, false, false, true, true]).loadCount = 2 ∧
    (raceRun raceLoadFn [false, true, false, false, true, true]).pc1 =
      .done ⟨100, 24000⟩ ∧
    (raceRun raceLoadFn [false, true, false, false, true, true]).pc2 =
      .done ⟨101, 24000⟩ ∧
    (⟨100, 24000⟩ : Model) ≠ (⟨101, 24000⟩ : Model) :=
  ⟨by decide, by decide, by decide, by decide⟩

/-- C3 amended: under sequential execution (each `get_model` call runs to
completion before the next begins) the property holds: the first call for
a variant whose slot is empty performs exactly one load, and every later
call routed to the same variant returns the identical cached handle with
no further load and no state change.  Under unsynchronized concurrent
first calls, duplicate loads can occur (see the counterexample). -/
theorem get_model_single_load_sequential (env : Env) (st : St)
    (lid : Option String) (mode : String) (m : Model)
    (hempty : cacheOf st (routeVariant lid mode) = none)
    (hload : env.loadModel (routeVariant lid mode) = .ok m) :
    ∃ st1,
      get_model env st lid mode = (.ok (m, variantName (routeVariant lid mode)), st1) ∧
      st1.loads = st.loads ++ [routeVariant lid mode] ∧
      cacheOf st1 (routeVariant lid mode) = some m ∧
      ∀ lid2 mode2, routeVariant lid2 mode2 = routeVariant lid mode →
        get_model env st1 lid2 mode2 =
          (.ok (m, variantName (routeVariant lid mode)), st1) := by
  rcases routeVariant_cases lid mode with ⟨hm, hr⟩ | ⟨hm, hlid, hr⟩ | ⟨hm, hlid, hr⟩
  · subst hm
    rw [hr] at hempty hload ⊢
    refine ⟨_, get_model_load_vc env st lid m hempty hload, rfl, rfl, ?_⟩
    intro lid2 mode2 hroute
    rcases routeVariant_cases lid2 mode2 with ⟨hm2, hr2⟩ | ⟨hm2, hlid2, hr2⟩ | ⟨hm2, hlid2, hr2⟩
    · subst hm2
      exact get_model_hit_vc env _ lid2 m rfl
    · rw [hroute] at hr2; cases hr2
    · rw [hroute] at hr2; cases hr2
  · rw [hr] at hempty hload ⊢
    refine ⟨_, get_model_load_en env st lid mode m hm hlid hempty hload, rfl, rfl, ?_⟩
    intro lid2 mode2 hroute
    rcases routeVariant_cases lid2 mode2 with ⟨hm2, hr2⟩ | ⟨hm2, hlid2, hr2⟩ | ⟨hm2, hlid2, hr2⟩
    · rw [hroute] at hr2; cases hr2
    · exact get_model_hit_en env _ lid2 mode2 m hm2 hlid2 rfl
    · rw [hroute] at hr2; cases hr2
  · rw [hr] at hempty hload ⊢
    refine ⟨_, get_model_load_ml env st lid mode m hm hlid hempty hload, rfl, rfl, ?_⟩
    intro lid2 mode2 hroute
    rcases routeVariant_cases lid2 mode2 with ⟨hm2, hr2⟩ | ⟨hm2, hlid2, hr2⟩ | ⟨hm2, hlid2, hr2⟩
    · rw [hroute] at hr2; cases hr2
    · rw [hroute] at hr2; cases hr2
    · exact get_model_hit_ml env _ lid2 mode2 m hm2 hlid2 rfl

/-- Witness for C3 amended at the english variant from a fresh state. -/
theorem get_model_single_load_sequential_witness :
    cacheOf st0 (routeVariant none "tts") = none ∧
    okEnv.loadModel (routeVariant none "tts") = .ok ⟨1, 24000⟩ ∧
    ∃ st1,
      get_model okEnv st0 none "tts" =
        (.ok (⟨1, 24000⟩, variantName (routeVariant none "tts")), st1) ∧
      st1.loads = st0.loads ++ [routeVariant none "tts"] ∧
      cacheOf st1 (routeVariant none "tts") = some ⟨1, 24000⟩ ∧
      ∀ lid2 mode2, routeVariant lid2 mode2 = routeVariant none "tts" →
        get_model okEnv st1 lid2 mode2 =
          (.ok (⟨1, 24000⟩, variantName (routeVariant none "tts")), st1) :=
  ⟨by decide, by decide,
   get_model_single_load_sequential okEnv st0 none "tts" ⟨1, 24000⟩ (by decide) (by decide)⟩

/-- A response carries exactly one of: an audio payload, a message, an
error string. -/
def exactlyOneShape (r : JobResponse) : Prop :=
  (r.audio_base64.isSome ∧ r.message = none ∧ r.error = none) ∨
  (r.message.isSome ∧ r.audio_base64 = none ∧ r.error = none) ∨
  (r.error.isSome ∧ r.audio_base64 = none ∧ r.message = none)

/-- The collaborators raise only exceptions with non-empty messages. -/
def nonEmptyErrs (env : Env) : Prop :=
  (∀ s e, env.b64decode s = .error e → e ≠ "") ∧
  (∀ v e, env.loadModel v = .error e → e ≠ "") ∧
  (∀ m a e, env.generate m a = .error e → e ≠ "") ∧
  (∀ m a e, env.generateVC m a = .error e → e ≠ "") ∧
  (∀ b n e, env.taSave b n = .error e → e ≠ "")

/-- TTS encodes never carry an error key. -/
theorem encode_tts_error_none (env : Env) (rf : String) (buf : Bytes) (sr : Nat)
    (lid : Option String) (mt : String) (vs app : Option String) :
    (encode_tts_response env rf buf sr lid mt vs app).error = none := by
  unfold encode_tts_response; split <;> rfl

/-- VC encodes never carry an error key. -/
theorem encode_vc_error_none (env : Env) (rf : String) (buf : Bytes) (sr : Nat)
    (mt : String) : (encode_vc_response env rf buf sr mt).error = none := by
  unfold encode_vc_response; split <;> rfl

/-- TTS encodes carry exactly one payload shape. -/
theorem exactlyOneShape_tts (env : Env) (rf : String) (buf : Bytes) (sr : Nat)
    (lid : Option String) (mt : String) (vs app : Option String) :
    exactlyOneShape (encode_tts_response env rf buf sr lid mt vs app) := by
  unfold encode_tts_response exactlyOneShape
  split
  · exact .inl ⟨rfl, rfl, rfl⟩
  · exact .inr (.inl ⟨rfl, rfl, rfl⟩)

/-- VC encodes carry exactly one payload shape. -/
theorem exactlyOneShape_vc (env : Env) (rf : String) (buf : Bytes) (sr : Nat)
    (mt : String) : exactlyOneShape (encode_vc_response env rf buf sr mt) := by
  unfold encode_vc_response exactlyOneShape
  split
  · exact .inl ⟨rfl, rfl, rfl⟩
  · exact .inr (.inl ⟨rfl, rfl, rfl⟩)

/-- With non-empty collaborator messages, every boundary error message is
non-empty (the fixed literals are non-empty, and the field-naming wrapper
has a non-empty literal part). -/
theorem errFrom_ne_empty (env : Env) (e : String) (hf : errFrom env e)
    (hne : nonEmptyErrs env) : e ≠ "" := by
  obtain ⟨h1, h2, h3, h4, h5⟩ := hne
  rcases hf with h | h | h | h | ⟨s, d, hd, h | h⟩ | ⟨v, h⟩ | ⟨m, a, h⟩ | ⟨m, a, h⟩ | ⟨b, n, h⟩
  · subst h; decide
  · subst h; decide
  · subst h; decide
  · subst h; decide
  · rw [h]; exact h1 s d hd
  · rw [h]
    intro hc
    have hlen := congrArg String.length hc
    rw [String.length_append] at hlen
    have h29 : ("Invalid voice_sample_base64: ").length = 29 := by decide
    have h0 : ("" : String).length = 0 := rfl
    rw [h29, h0] at hlen
    omega
  · exact h2 v e h
  · exact h3 m a e h
  · exact h4 m a e h
  · exact h5 b n e h

/-- Every handler response is a pure error dict with a boundary-traceable
message, a TTS encode, or a VC encode. -/
theorem handler_resp_form (env : Env) (st : St) (job : Option JobInput) :
    (∃ e, (handler env st job).1 = pureErr e ∧ errFrom env e) ∨
    (∃ rf buf sr lid mt vs app,
      (handler env st job).1 = encode_tts_response env rf buf sr lid mt vs app) ∨
    (∃ rf buf sr mt, (handler env st job).1 = encode_vc_response env rf buf sr mt) := by
  match job with
  | none => exact .inl ⟨_, rfl, .inr (.inr (.inr (.inl rfl)))⟩
  | some j =>
    rw [handler_some]
    rcases hd : dispatch env st j with ⟨res, st2⟩
    unfold dispatch at hd
    split at hd
    · rcases handle_vc_form env st j res st2 hd with
        ⟨e, he, hf⟩ | he | he | ⟨rf, buf, sr, mt, he⟩
      · subst he; exact .inl ⟨e, rfl, hf⟩
      · subst he; exact .inl ⟨_, rfl, .inr (.inl rfl)⟩
      · subst he; exact .inl ⟨_, rfl, .inr (.inr (.inl rfl))⟩
      · subst he; exact .inr (.inr ⟨rf, buf, sr, mt, rfl⟩)
    · rcases handle_tts_form env st j res st2 hd with
        ⟨e, he, hf⟩ | he | ⟨d, s, hdec, he⟩ | ⟨rf, buf, sr, mt, app, he⟩
      · subst he; exact .inl ⟨e, rfl, hf⟩
      · subst he; exact .inl ⟨_, rfl, .inl rfl⟩
      · subst he
        exact .inl ⟨_, rfl, .inr (.inr (.inr (.inr (.inl ⟨s, d, hdec, .inr rfl⟩))))⟩
      · subst he
        exact .inr (.inl ⟨rf, buf, sr, j.language_id, mt, j.voice_sample_base64, app, rfl⟩)

/-- The concrete TTS job with url return format used against C4/C9. -/
def jobUrl : JobInput := { text := some "hi", return_format := some "url" }

/-- C4 counterexample: the url-format response of a successful generation
contains neither an audio payload nor an error — the claimed dichotomy
"audio payload or non-empty error" fails on it. -/
theorem url_response_neither :
    (handler okEnv st0 (some jobUrl)).1.audio_base64 = none ∧
    (handler okEnv st0 (some jobUrl)).1.error = none ∧
    (handler okEnv st0 (some jobUrl)).1.message =
      some "URL format not implemented. Use base64." :=
  ⟨by decide, by decide, by decide⟩

/-- C4 amended: every handler response carries exactly one of an audio
payload, a not-implemented message, or an error string — never more than
one and never none of them; and the error string is non-empty whenever
the collaborators raise only non-empty exception messages. -/
theorem response_wellformed_amended (env : Env) (st : St) (job : Option JobInput) :
    exactlyOneShape (handler env st job).1 ∧
    (nonEmptyErrs env → ∀ e, (handler env st job).1.error = some e → e ≠ "") := by
  rcases handler_resp_form env st job with
    ⟨e, he, hf⟩ | ⟨rf, buf, sr, lid, mt, vs, app, he⟩ | ⟨rf, buf, sr, mt, he⟩
  · rw [he]
    refine ⟨.inr (.inr ⟨rfl, rfl, rfl⟩), fun hne e2 he2 => ?_⟩
    simp only [pureErr] at he2
    injection he2 with he2
    subst he2
    exact errFrom_ne_empty env e hf hne
  · rw [he]
    refine ⟨exactlyOneShape_tts env rf buf sr lid mt vs app, fun hne e2 he2 => ?_⟩
    rw [encode_tts_error_none] at he2
    cases he2
  · rw [he]
    refine ⟨exactlyOneShape_vc env rf buf sr mt, fun hne e2 he2 => ?_⟩
    rw [encode_vc_error_none] at he2
    cases he2

/-- The all-succeeding environment raises only non-empty messages. -/
theorem nonEmptyErrs_okEnv : nonEmptyErrs okEnv := by
  refine ⟨?_, ?_, ?_, ?_, ?_⟩
  · intro s e h
    unfold okEnv at h
    dsimp only at h
    split at h
    · injection h with h; subst h; decide
    · simp at h
  · intro v e h; simp [okEnv] at h
  · intro m a e h; simp [okEnv] at h
  · intro m a e h; simp [okEnv] at h
  · intro b n e h; simp [okEnv] at h

/-- Witness for C4 amended at two concrete runs: the url response has
exactly one shape, and a concrete error response has a non-empty message. -/
theorem response_wellformed_amended_witness :
    exactlyOneShape (handler okEnv st0 (some jobUrl)).1 ∧ "No text provided" ≠ "" :=
  ⟨(response_wellformed_amended okEnv st0 (some jobUrl)).1,
   (response_wellformed_amended okEnv st0 (some { mode := some "tts" })).2
     nonEmptyErrs_okEnv "No text provided" (by decide)⟩

/-- Cleanup does not touch the generate log. -/
theorem cleanupTemp_genCalls (env : Env) (st : St) (o : Option Nat) :
    (cleanupTemp env st o).genCalls = st.genCalls := by
  rw [cleanupTemp_only_files]

/-- The generation body logs exactly one invocation, whose arguments
carry the `language_id` keyword precisely when the model type is
multilingual and the language id is truthy. -/
theorem tts_generate_genCalls (env : Env) (st : St) (model : Model) (mt text : String)
    (lid app : Option String) (rp mp tp ex cw tm : Rat) :
    ∃ args : GenArgs,
      (tts_generate env st model mt text lid app rp mp tp ex cw tm).2.genCalls
        = st.genCalls ++ [⟨mt, model, args⟩] ∧
      args.language_id = (if mt = "multilingual" ∧ pyTruthy lid = true then lid else none) ∧
      args.audio_prompt_path = app := by
  by_cases hc : (mt = "multilingual" ∧ pyTruthy lid = true)
  · refine ⟨⟨text, lid, rp, mp, tp, app, ex, cw, tm⟩, ?_, by rw [if_pos hc], rfl⟩
    unfold tts_generate
    dsimp only
    rw [if_pos hc]
    split
    · rfl
    · split <;> rfl
  · refine ⟨⟨text, none, rp, mp, tp, app, ex, cw, tm⟩, ?_, by rw [if_neg hc], rfl⟩
    unfold tts_generate
    dsimp only
    rw [if_neg hc]
    split
    · rfl
    · split <;> rfl

/-- The generate log left by `tts_rest` is the one left by its generation
body (cleanup does not touch it). -/
theorem tts_rest_genCalls (env : Env) (st : St) (j : JobInput) (model : Model)
    (mt : String) (vstp : Option Nat) (app : Option String) :
    (tts_rest env st j model mt vstp app).2.genCalls =
      (tts_generate env st model mt (j.text.getD "") j.language_id app
        (j.repetition_penalty.getD (1.2 : Rat)) (j.min_p.getD (0.05 : Rat))
        (j.top_p.getD (1 : Rat)) (j.exaggeration.getD (0.5 : Rat))
        (j.cfg_weight.getD (0.5 : Rat)) (j.temperature.getD (0.8 : Rat))).2.genCalls := by
  unfold tts_rest
  dsimp only
  split
  · rename_i e stx heq
    rw [cleanupTemp_genCalls, heq]
  · rename_i p stx heq
    rw [cleanupTemp_genCalls, heq]

/-- A successful `tts_rest` reports the selected model type. -/
theorem tts_rest_model_type (env : Env) (st : St) (j : JobInput) (model : Model)
    (mt : String) (vstp : Option Nat) (app : Option String) (r : JobResponse) (st1 : St)
    (h : tts_rest env st j model mt vstp app = (.ok r, st1)) :
    r.model_type = some mt := by
  unfold tts_rest at h
  dsimp only at h
  split at h
  · simp at h
  · injection h with h1 h2
    injection h1 with h1
    subst h1
    unfold encode_tts_response
    split <;> rfl

/-- `handle_tts` without a truthy voice sample is the tail after a
successful model fetch, with the legacy audio prompt path. -/
theorem handle_tts_no_sample (env : Env) (st : St) (j : JobInput) (m : Model)
    (mt : String) (st1 : St)
    (htext : pyTruthy j.text = true) (hvs : pyTruthy j.voice_sample_base64 = false)
    (hget : get_model env st j.language_id "tts" = (.ok (m, mt), st1)) :
    handle_tts env st j = tts_rest env st1 j m mt none j.audio_prompt_path := by
  simp [handle_tts, htext, hvs, hget]

/-- The concrete job of the C6 counterexample: present but empty-string
language id. -/
def jobEmptyLang : JobInput := { text := some "hi", language_id := some "" }

/-- C6 counterexample: with `language_id` present and non-default (the
empty string), the multilingual variant is selected and reported, but the
generate invocation does not carry the `language_id` keyword, refuting
the claim that the invocation arguments carry it. -/
theorem empty_language_id_routing :
    (handler okEnv st0 (some jobEmptyLang)).1.model_type = some "multilingual" ∧
    ((handler okEnv st0 (some jobEmptyLang)).2.genCalls.map
      (fun c => c.args.language_id)) = [none] ∧
    (some "" : Option String) ≠ none ∧ (some "" : Option String) ≠ some "en" :=
  ⟨by decide, by decide, by decide, by decide⟩

/-- The second state component of the handler is that of the dispatched
sub-handler. -/
theorem handler_snd (env : Env) (st : St) (j : JobInput) :
    (handler env st (some j)).2 = (dispatch env st j).2 := by
  rw [handler_some]
  rcases dispatch env st j with ⟨res, st2⟩
  cases res <;> rfl

/-- C6 amended: with both TTS variants cached, non-empty text, no voice
sample and a non-voice-clone mode, exactly one generate invocation is
logged; an absent or default ("en") `language_id` selects the english
variant and passes no `language_id` keyword; a present non-default
`language_id` selects the multilingual variant, whose invocation carries
the `language_id` keyword exactly when the id is also non-empty; a
successful response reports the selected variant as `model_type`. -/
theorem routing_amended (env : Env) (st : St) (j : JobInput) (me mml : Model)
    (hmode : j.mode.getD "tts" ≠ "voice_clone")
    (hen : st.cache.english = some me) (hml : st.cache.multilingual = some mml)
    (htext : pyTruthy j.text = true)
    (hvs : pyTruthy j.voice_sample_base64 = false) :
    ∃ call : GenCall,
      (handler env st (some j)).2.genCalls = st.genCalls ++ [call] ∧
      ((j.language_id = none ∨ j.language_id = some "en") →
        call.model_type = "english" ∧ call.model = me ∧ call.args.language_id = none) ∧
      (∀ l, j.language_id = some l → l ≠ "en" →
        call.model_type = "multilingual" ∧ call.model = mml ∧
        call.args.language_id = (if l = "" then none else some l)) ∧
      (∀ r st1, handler env st (some j) = (r, st1) → r.error = none →
        r.model_type = some call.model_type) := by
  by_cases hlid : (j.language_id = none ∨ j.language_id = some "en")
  · have hget := get_model_hit_en env st j.language_id "tts" me (by decide) hlid hen
    have hht := handle_tts_no_sample env st j me "english" st htext hvs hget
    obtain ⟨args, hcalls, hlidargs, happ⟩ :=
      tts_generate_genCalls env st me "english" (j.text.getD "") j.language_id
        j.audio_prompt_path (j.repetition_penalty.getD (1.2 : Rat))
        (j.min_p.getD (0.05 : Rat)) (j.top_p.getD (1 : Rat))
        (j.exaggeration.getD (0.5 : Rat)) (j.cfg_weight.getD (0.5 : Rat))
        (j.temperature.getD (0.8 : Rat))
    refine ⟨⟨"english", me, args⟩, ?_, fun _ => ⟨rfl, rfl, ?_⟩, ?_, ?_⟩
    · rw [handler_snd, dispatch_tts env st j hmode, hht, tts_rest_genCalls, hcalls]
    · rw [hlidargs]
      simp
    · intro l hl hlne
      rcases hlid with hn | he
      · rw [hn] at hl; cases hl
      · rw [he] at hl; injection hl with hl; exact absurd hl.symm hlne
    · intro r st1 hr hrerr
      rw [handler_some, dispatch_tts env st j hmode, hht] at hr
      rcases hres : tts_rest env st j me "english" none j.audio_prompt_path with ⟨res, st2⟩
      rw [hres] at hr
      match res, hr with
      | .ok r2, hr =>
        injection hr with hr1 hr2
        subst hr1
        exact tts_rest_model_type env st j me "english" none j.audio_prompt_path r2 st2 hres
      | .error e, hr =>
        injection hr with hr1 hr2
        subst hr1
        simp [pureErr] at hrerr
  · have hget := get_model_hit_ml env st j.language_id "tts" mml (by decide) hlid hml
    have hht := handle_tts_no_sample env st j mml "multilingual" st htext hvs hget
    obtain ⟨args, hcalls, hlidargs, happ⟩ :=
      tts_generate_genCalls env st mml "multilingual" (j.text.getD "") j.language_id
        j.audio_prompt_path (j.repetition_penalty.getD (1.2 : Rat))
        (j.min_p.getD (0.05 : Rat)) (j.top_p.getD (1 : Rat))
        (j.exaggeration.getD (0.5 : Rat)) (j.cfg_weight.getD (0.5 : Rat))
        (j.temperature.getD (0.8 : Rat))
    refine ⟨⟨"multilingual", mml, args⟩, ?_, fun hc => absurd hc hlid, ?_, ?_⟩
    · rw [handler_snd, dispatch_tts env st j hmode, hht, tts_rest_genCalls, hcalls]
    · intro l hl hlne
      refine ⟨rfl, rfl, ?_⟩
      rw [hlidargs, hl]
      by_cases hle : l = ""
      · subst hle
        simp [pyTruthy]
      · simp [pyTruthy, hle]
    · intro r st1 hr hrerr
      rw [handler_some, dispatch_tts env st j hmode, hht] at hr
      rcases hres : tts_rest env st j mml "multilingual" none j.audio_prompt_path with ⟨res, st2⟩
      rw [hres] at hr
      match res, hr with
      | .ok r2, hr =>
        injection hr with hr1 hr2
        subst hr1
        exact tts_rest_model_type env st j mml "multilingual" none j.audio_prompt_path r2 st2 hres
      | .error e, hr =>
        injection hr with hr1 hr2
        subst hr1
        simp [pureErr] at hrerr

/-- Witness for C6 amended at a concrete multilingual request, with both
TTS variants pre-cached. -/
def stBothCached : St :=
  { cache := { english := some ⟨1, 24000⟩, multilingual := some ⟨2, 24000⟩ } }

/-- Witness for C6 amended: the hypotheses hold at a concrete french
request against the pre-cached state, and the theorem applies. -/
theorem routing_amended_witness :
    (({ text := some "hi", language_id := some "fr" } : JobInput).mode.getD "tts"
        ≠ "voice_clone") ∧
    stBothCached.cache.english = some ⟨1, 24000⟩ ∧
    stBothCached.cache.multilingual = some ⟨2, 24000⟩ ∧
    pyTruthy ({ text := some "hi", language_id := some "fr" } : JobInput).text = true ∧
    ∃ call : GenCall,
      (handler okEnv stBothCached
          (some { text := some "hi", language_id := some "fr" })).2.genCalls
        = stBothCached.genCalls ++ [call] ∧
      ((({ text := some "hi", language_id := some "fr" } : JobInput).language_id = none ∨
        ({ text := some "hi", language_id := some "fr" } : JobInput).language_id = some "en") →
        call.model_type = "english" ∧ call.model = ⟨1, 24000⟩ ∧
          call.args.language_id = none) ∧
      (∀ l, ({ text := some "hi", language_id := some "fr" } : JobInput).language_id = some l →
        l ≠ "en" →
        call.model_type = "multilingual" ∧ call.model = ⟨2, 24000⟩ ∧
        call.args.language_id = (if l = "" then none else some l)) ∧
      (∀ r st1, handler okEnv stBothCached
          (some { text := some "hi", language_id := some "fr" }) = (r, st1) →
        r.error = none → r.model_type = some call.model_type) :=
  ⟨by decide, by decide, by decide, by decide,
   routing_amended okEnv stBothCached { text := some "hi", language_id := some "fr" }
     ⟨1, 24000⟩ ⟨2, 24000⟩ (by decide) (by decide) (by decide) (by decide) (by decide)⟩

/-! Release failures never influence the response: the unlink oracle is
consulted only by `cleanupTemp`, which touches only the file list, after
the response value is already fixed. -/

/-- `get_model` ignores the unlink oracle. -/
theorem get_model_unlink (env : Env) (u : Nat → Bool) (st : St) (lid : Option String)
    (mode : String) :
    get_model { env with unlinkFails := u } st lid mode = get_model env st lid mode := rfl

/-- `save_base64_to_temp_file` ignores the unlink oracle. -/
theorem save_b64_unlink (env : Env) (u : Nat → Bool) (st : St) (s : String) :
    save_base64_to_temp_file { env with unlinkFails := u } st s
      = save_base64_to_temp_file env st s := rfl

/-- The TTS generation body ignores the unlink oracle. -/
theorem tts_generate_unlink (env : Env) (u : Nat → Bool) (st : St) (model : Model)
    (mt text : String) (lid app : Option String) (rp mp tp ex cw tm : Rat) :
    tts_generate { env with unlinkFails := u } st model mt text lid app rp mp tp ex cw tm
      = tts_generate env st model mt text lid app rp mp tp ex cw tm := rfl

/-- TTS encodes ignore the unlink oracle. -/
theorem encode_tts_unlink (env : Env) (u : Nat → Bool) (rf : String) (buf : Bytes)
    (sr : Nat) (lid : Option String) (mt : String) (vs app : Option String) :
    encode_tts_response { env with unlinkFails := u } rf buf sr lid mt vs app
      = encode_tts_response env rf buf sr lid mt vs app := rfl

/-- VC encodes ignore the unlink oracle. -/
theorem encode_vc_unlink (env : Env) (u : Nat → Bool) (rf : String) (buf : Bytes)
    (sr : Nat) (mt : String) :
    encode_vc_response { env with unlinkFails := u } rf buf sr mt
      = encode_vc_response env rf buf sr mt := rfl

/-- The response of `tts_rest` does not depend on the unlink oracle. -/
theorem tts_rest_unlink (env : Env) (u : Nat → Bool) (st : St) (j : JobInput)
    (model : Model) (mt : String) (vstp : Option Nat) (app : Option String) :
    (tts_rest { env with unlinkFails := u } st j model mt vstp app).1
      = (tts_rest env st j model mt vstp app).1 := by
  unfold tts_rest
  dsimp only
  rw [tts_generate_unlink]
  split
  · rfl
  · rw [encode_tts_unlink]

/-- The response of `handle_tts` does not depend on the unlink oracle. -/
theorem handle_tts_unlink (env : Env) (u : Nat → Bool) (st : St) (j : JobInput) :
    (handle_tts { env with unlinkFails := u } st j).1 = (handle_tts env st j).1 := by
  unfold handle_tts
  rw [get_model_unlink]
  split
  · split
    · rfl
    · rw [save_b64_unlink]
      split
      · split
        · rfl
        · rw [tts_rest_unlink]
      · rw [tts_rest_unlink]
  · rfl

/-- The response of `handle_voice_clone` does not depend on the unlink
oracle. -/
theorem handle_vc_unlink (env : Env) (u : Nat → Bool) (st : St) (j : JobInput) :
    (handle_voice_clone { env with unlinkFails := u } st j).1
      = (handle_voice_clone env st j).1 := by
  unfold handle_voice_clone
  dsimp only
  rw [get_model_unlink]
  split
  · split
    · split
      · rfl
      · rw [save_b64_unlink]
        split
        · rfl
        · rw [save_b64_unlink]
          split
          · rfl
          · split
            · rfl
            · split
              · rfl
              · rw [encode_vc_unlink]
    · rfl
  · rfl

/-- The handler response does not depend on the unlink oracle. -/
theorem handler_unlink (env : Env) (u : Nat → Bool) (st : St) (job : Option JobInput) :
    (handler { env with unlinkFails := u } st job).1 = (handler env st job).1 := by
  match job with
  | none => rfl
  | some j =>
    have hd : (dispatch { env with unlinkFails := u } st j).1 = (dispatch env st j).1 := by
      unfold dispatch
      split
      · exact handle_vc_unlink env u st j
      · exact handle_tts_unlink env u st j
    rw [handler_some, handler_some]
    rcases h1 : dispatch { env with unlinkFails := u } st j with ⟨res1, stx1⟩
    rcases h2 : dispatch env st j with ⟨res2, stx2⟩
    rw [h1, h2] at hd
    have hres : res1 = res2 := hd
    subst hres
    cases res1 <;> rfl

/-! File accounting: with fresh temp names and a working unlink, every
invocation ends with exactly the files it started with. -/

/-- Two-file cleanup: source then target, both created in this
invocation, are both removed. -/
theorem cleanup_two (env : Env) (fs : List Nat) (a b : Nat)
    (hfa : a ∉ fs) (hfb : b ∉ fs) (_hab : a ≠ b)
    (hua : env.unlinkFails a = false) (hub : env.unlinkFails b = false)
    (st2 : St) (hfiles : st2.files = (fs ++ [a]) ++ [b]) :
    (cleanupTemp env (cleanupTemp env st2 (some a)) (some b)).files = fs := by
  have h1 : a ∈ st2.files := by rw [hfiles]; simp
  rw [cleanupTemp_erase env st2 a h1 hua]
  have h2 : st2.files.erase a = fs ++ [b] := by
    rw [hfiles, List.erase_append_left _ (by simp : a ∈ fs ++ [a]),
        List.erase_append_right _ hfa]
    simp
  have h3 : b ∈ ({ st2 with files := st2.files.erase a } : St).files := by
    show b ∈ st2.files.erase a
    rw [h2]
    simp
  rw [cleanupTemp_erase env _ b h3 hub]
  show (st2.files.erase a).erase b = fs
  rw [h2, List.erase_append_right _ hfb]
  simp

/-- `tts_rest` without a sample file leaves the file list unchanged. -/
theorem tts_rest_files_none (env : Env) (st : St) (j : JobInput) (model : Model)
    (mt : String) (app : Option String) :
    (tts_rest env st j model mt none app).2.files = st.files := by
  unfold tts_rest
  dsimp only
  obtain ⟨-, hfl, -, -⟩ :=
    tts_generate_preserves env st model mt (j.text.getD "") j.language_id app
      (j.repetition_penalty.getD (1.2 : Rat)) (j.min_p.getD (0.05 : Rat))
      (j.top_p.getD (1 : Rat)) (j.exaggeration.getD (0.5 : Rat))
      (j.cfg_weight.getD (0.5 : Rat)) (j.temperature.getD (0.8 : Rat))
  split
  · rename_i e stx heq
    rw [cleanupTemp_none]
    rw [heq] at hfl
    exact hfl
  · rename_i p stx heq
    rw [cleanupTemp_none]
    rw [heq] at hfl
    exact hfl

/-- `tts_rest` with a sample file created this invocation removes it. -/
theorem tts_rest_files_some (env : Env) (st : St) (j : JobInput) (model : Model)
    (mt : String) (p : Nat) (app : Option String)
    (hin : p ∈ st.files) (hu : env.unlinkFails p = false) :
    (tts_rest env st j model mt (some p) app).2.files = st.files.erase p := by
  unfold tts_rest
  dsimp only
  obtain ⟨-, hfl, -, -⟩ :=
    tts_generate_preserves env st model mt (j.text.getD "") j.language_id app
      (j.repetition_penalty.getD (1.2 : Rat)) (j.min_p.getD (0.05 : Rat))
      (j.top_p.getD (1 : Rat)) (j.exaggeration.getD (0.5 : Rat))
      (j.cfg_weight.getD (0.5 : Rat)) (j.temperature.getD (0.8 : Rat))
  split
  · rename_i e stx heq
    rw [heq] at hfl
    rw [cleanupTemp_erase env stx p (by rw [hfl]; exact hin) hu]
    show stx.files.erase p = st.files.erase p
    rw [hfl]
  · rename_i p2 stx heq
    rw [heq] at hfl
    rw [cleanupTemp_erase env stx p (by rw [hfl]; exact hin) hu]
    show stx.files.erase p = st.files.erase p
    rw [hfl]

/-- `handle_tts` leaves the file list unchanged, given fresh temp naming
and a working unlink. -/
theorem handle_tts_files (env : Env) (st : St) (j : JobInput)
    (hfresh : st.nextTemp ∉ st.files) (hok : ∀ f, env.unlinkFails f = false) :
    (handle_tts env st j).2.files = st.files := by
  obtain ⟨hnt, hfl, -, -, -⟩ := get_model_preserves env st j.language_id "tts"
  unfold handle_tts
  split
  · split
    · rename_i e stx heq
      rw [heq] at hfl
      exact hfl
    · rename_i m mt stx heq
      rw [heq] at hfl hnt
      have hfl2 : stx.files = st.files := hfl
      have hnt2 : stx.nextTemp = st.nextTemp := hnt
      split
      · split
        · rename_i e stx2 heq2
          obtain ⟨hst2, -⟩ := save_b64_error env stx _ e stx2 heq2
          rw [hst2, hfl2]
        · rename_i p stx2 heq2
          obtain ⟨hp, hst2⟩ := save_b64_ok env stx _ p stx2 heq2
          subst hst2
          rw [tts_rest_files_some env _ j m mt p _ (by simp [hp]) (hok p)]
          show (stx.files ++ [stx.nextTemp]).erase p = st.files
          rw [hp, hnt2, List.erase_append_right _ (by rw [hfl2]; exact hfresh)]
          simp [hfl2]
      · rw [tts_rest_files_none env stx j m mt j.audio_prompt_path, hfl2]
  · rfl

/-- `handle_voice_clone` leaves the file list unchanged, given fresh temp
naming and a working unlink. -/
theorem handle_vc_files (env : Env) (st : St) (j : JobInput)
    (hf1 : st.nextTemp ∉ st.files) (hf2 : st.nextTemp + 1 ∉ st.files)
    (hok : ∀ f, env.unlinkFails f = false) :
    (handle_voice_clone env st j).2.files = st.files := by
  obtain ⟨hnt, hfl, -, -, -⟩ := get_model_preserves env st none "voice_clone"
  unfold handle_voice_clone
  dsimp only
  split
  · split
    · split
      · rename_i e stx heq
        rw [heq] at hfl
        exact hfl
      · rename_i m mt stx heq
        rw [heq] at hfl hnt
        have hfl2 : stx.files = st.files := hfl
        have hnt2 : stx.nextTemp = st.nextTemp := hnt
        split
        · rename_i e stx2 heq2
          obtain ⟨hst2, -⟩ := save_b64_error env stx _ e stx2 heq2
          rw [hst2, hfl2]
        · rename_i sp stx2 heq2
          obtain ⟨hsp, hst2⟩ := save_b64_ok env stx _ sp stx2 heq2
          subst hst2
          have hsp2 : sp = st.nextTemp := by rw [hsp, hnt2]
          split
          · rename_i e stx3 heq3
            obtain ⟨hst3, -⟩ := save_b64_error env _ _ e stx3 heq3
            subst hst3
            rw [cleanupTemp_erase env _ sp (by simp [hsp]) (hok sp)]
            show (stx.files ++ [stx.nextTemp]).erase sp = st.files
            rw [hsp, List.erase_append_right _ (by rw [hfl2, hnt2]; exact hf1)]
            simp [hfl2]
          · rename_i tp stx3 heq3
            obtain ⟨htp, hst3⟩ := save_b64_ok env _ _ tp stx3 heq3
            subst hst3
            have htp2 : tp = st.nextTemp + 1 := by
              have h4 : tp = stx.nextTemp + 1 := htp
              rw [h4, hnt2]
            have hfiles4 : ((stx.files ++ [stx.nextTemp]) ++ [stx.nextTemp + 1])
                = (st.files ++ [sp]) ++ [tp] := by
              rw [hfl2, hsp2, htp2, hnt2]
            split
            · exact cleanup_two env st.files sp tp (hsp2 ▸ hf1) (htp2 ▸ hf2)
                (by rw [hsp2, htp2]; omega) (hok sp) (hok tp) _ hfiles4
            · split
              · exact cleanup_two env st.files sp tp (hsp2 ▸ hf1) (htp2 ▸ hf2)
                  (by rw [hsp2, htp2]; omega) (hok sp) (hok tp) _ hfiles4
              · exact cleanup_two env st.files sp tp (hsp2 ▸ hf1) (htp2 ▸ hf2)
                  (by rw [hsp2, htp2]; omega) (hok sp) (hok tp) _ hfiles4
    · rfl
  · rfl

/-- C8: after every invocation — success, generation error, or routing
error — every temp file created during the invocation has been removed
(the file list returns to its pre-invocation value), release running on
every exit path; and release failures are tolerated: the response is
identical under any unlink-failure behaviour, so they are never
propagated to the caller. -/
theorem resources_released (env : Env) (st : St) (job : Option JobInput) (u : Nat → Bool)
    (hf1 : st.nextTemp ∉ st.files) (hf2 : st.nextTemp + 1 ∉ st.files)
    (hok : ∀ f, env.unlinkFails f = false) :
    (handler env st job).2.files = st.files ∧
    (handler { env with unlinkFails := u } st job).1 = (handler env st job).1 := by
  refine ⟨?_, handler_unlink env u st job⟩
  match job with
  | none => rfl
  | some j =>
    rw [handler_snd]
    unfold dispatch
    split
    · exact handle_vc_files env st j hf1 hf2 hok
    · exact handle_tts_files env st j hf1 hok

/-- The concrete voice-sample TTS job used by the C8 witness: it creates
one temp file during the invocation. -/
def jobSample : JobInput := { text := some "hi", voice_sample_base64 := some "QQ==" }

/-- Witness for C8 at a concrete request that creates a temp file:
afterwards no file remains, and an always-failing unlink leaves the
response unchanged. -/
theorem resources_released_witness :
    (st0.nextTemp ∉ st0.files) ∧ (st0.nextTemp + 1 ∉ st0.files) ∧
    (handler okEnv st0 (some jobSample)).2.files = st0.files ∧
    (handler { okEnv with unlinkFails := fun _ => true } st0 (some jobSample)).1
      = (handler okEnv st0 (some jobSample)).1 :=
  ⟨by decide, by decide,
   (resources_released okEnv st0 (some jobSample) (fun _ => true)
     (by decide) (by decide) (fun _ => rfl)).1,
   (resources_released okEnv st0 (some jobSample) (fun _ => true)
     (by decide) (by decide) (fun _ => rfl)).2⟩

/-! Tracking of the `reachedEncoding` flag along failure paths. -/

/-- Saving a temp file never touches the encoding flag. -/
theorem save_b64_reached (env : Env) (st : St) (s : String) :
    (save_base64_to_temp_file env st s).2.reachedEncoding = st.reachedEncoding := by
  unfold save_base64_to_temp_file
  split <;> rfl

/-- Cleanup never touches the encoding flag. -/
theorem cleanupTemp_reached (env : Env) (st : St) (o : Option Nat) :
    (cleanupTemp env st o).reachedEncoding = st.reachedEncoding := by
  rw [cleanupTemp_only_files]

/-- A failing `tts_rest` leaves the encoding flag unchanged. -/
theorem tts_rest_error_flag (env : Env) (st : St) (j : JobInput) (model : Model)
    (mt : String) (vstp : Option Nat) (app : Option String) (e : String) (st1 : St)
    (h : tts_rest env st j model mt vstp app = (.error e, st1)) :
    st1.reachedEncoding = st.reachedEncoding := by
  unfold tts_rest at h
  dsimp only at h
  split at h
  · rename_i e2 stx heq
    injection h with h1 h2
    subst h2
    rw [cleanupTemp_reached]
    exact tts_generate_error_flag env st model mt (j.text.getD "") j.language_id app
      (j.repetition_penalty.getD (1.2 : Rat)) (j.min_p.getD (0.05 : Rat))
      (j.top_p.getD (1 : Rat)) (j.exaggeration.getD (0.5 : Rat))
      (j.cfg_weight.getD (0.5 : Rat)) (j.temperature.getD (0.8 : Rat)) e2 stx heq
  · simp at h

/-- An exception escaping `handle_tts` leaves the encoding flag
unchanged. -/
theorem handle_tts_error_flag (env : Env) (st : St) (j : JobInput) (e : String) (st1 : St)
    (h : handle_tts env st j = (.error e, st1)) :
    st1.reachedEncoding = st.reachedEncoding := by
  obtain ⟨-, -, -, -, hre⟩ := get_model_preserves env st j.language_id "tts"
  unfold handle_tts at h
  split at h
  · split at h
    · rename_i e2 stx heq
      injection h with h1 h2
      subst h2
      rw [heq] at hre
      exact hre
    · rename_i m mt stx heq
      rw [heq] at hre
      have hre2 : stx.reachedEncoding = st.reachedEncoding := hre
      split at h
      · split at h
        · simp at h
        · rename_i p stx2 heq2
          obtain ⟨-, hst2⟩ := save_b64_ok env stx _ p stx2 heq2
          subst hst2
          rw [tts_rest_error_flag env _ j m mt (some p) (some (tempName p)) e st1 h]
          exact hre2
      · rw [tts_rest_error_flag env stx j m mt none j.audio_prompt_path e st1 h]
        exact hre2
  · simp at h

/-- An exception escaping `handle_voice_clone` leaves the encoding flag
unchanged. -/
theorem handle_vc_error_flag (env : Env) (st : St) (j : JobInput) (e : String) (st1 : St)
    (h : handle_voice_clone env st j = (.error e, st1)) :
    st1.reachedEncoding = st.reachedEncoding := by
  obtain ⟨-, -, -, -, hre⟩ := get_model_preserves env st none "voice_clone"
  unfold handle_voice_clone at h
  dsimp only at h
  split at h
  · split at h
    · split at h
      · rename_i e2 stx heq
        injection h with h1 h2
        subst h2
        rw [heq] at hre
        exact hre
      · rename_i m mt stx heq
        rw [heq] at hre
        have hre2 : stx.reachedEncoding = st.reachedEncoding := hre
        split at h
        · rename_i e2 stx2 heq2
          obtain ⟨hst2, -⟩ := save_b64_error env stx _ e2 stx2 heq2
          injection h with h1 h2
          subst h2
          rw [hst2]
          exact hre2
        · rename_i sp stx2 heq2
          obtain ⟨-, hst2⟩ := save_b64_ok env stx _ sp stx2 heq2
          subst hst2
          split at h
          · rename_i e2 stx3 heq3
            obtain ⟨hst3, -⟩ := save_b64_error env _ _ e2 stx3 heq3
            injection h with h1 h2
            subst h2
            rw [cleanupTemp_reached, hst3]
            exact hre2
          · rename_i tp stx3 heq3
            obtain ⟨-, hst3⟩ := save_b64_ok env _ _ tp stx3 heq3
            subst hst3
            split at h
            · injection h with h1 h2
              subst h2
              rw [cleanupTemp_reached, cleanupTemp_reached]
              exact hre2
            · split at h
              · injection h with h1 h2
                subst h2
                rw [cleanupTemp_reached, cleanupTemp_reached]
                exact hre2
              · simp at h
    · simp at h
  · simp at h

/-- A successful `handle_tts` that flipped the encoding flag returned a
TTS encode for the return format of the request. -/
theorem handle_tts_ok_flag_form (env : Env) (st : St) (j : JobInput) (r : JobResponse)
    (st1 : St) (h : handle_tts env st j = (.ok r, st1))
    (h0 : st.reachedEncoding = false) (h1 : st1.reachedEncoding = true) :
    ∃ buf sr mt app, r = encode_tts_response env (j.return_format.getD "base64")
      buf sr j.language_id mt j.voice_sample_base64 app := by
  obtain ⟨-, -, -, -, hre⟩ := get_model_preserves env st j.language_id "tts"
  unfold handle_tts at h
  split at h
  · split at h
    · simp at h
    · rename_i m mt stx heq
      rw [heq] at hre
      have hre2 : stx.reachedEncoding = st.reachedEncoding := hre
      split at h
      · split at h
        · rename_i e2 stx2 heq2
          obtain ⟨hst2, -⟩ := save_b64_error env stx _ e2 stx2 heq2
          injection h with hh1 hh2
          subst hh2
          rw [hst2, hre2, h0] at h1
          simp at h1
        · rcases tts_rest_form env _ j m mt _ _ _ _ h with ⟨e, he, -⟩ | ⟨buf, sr, hok⟩
          · cases he
          · injection hok with hok
            exact ⟨buf, sr, mt, _, hok⟩
      · rcases tts_rest_form env stx j m mt none j.audio_prompt_path _ _ h with
          ⟨e, he, -⟩ | ⟨buf, sr, hok⟩
        · cases he
        · injection hok with hok
          exact ⟨buf, sr, mt, _, hok⟩
  · injection h with hh1 hh2
    subst hh2
    rw [h0] at h1
    simp at h1

/-- A successful `handle_voice_clone` that flipped the encoding flag
returned a VC encode for the return format of the request. -/
theorem handle_vc_ok_flag_form (env : Env) (st : St) (j : JobInput) (r : JobResponse)
    (st1 : St) (h : handle_voice_clone env st j = (.ok r, st1))
    (h0 : st.reachedEncoding = false) (h1 : st1.reachedEncoding = true) :
    ∃ buf sr mt, r = encode_vc_response env (j.return_format.getD "base64") buf sr mt := by
  unfold handle_voice_clone at h
  dsimp only at h
  split at h
  · split at h
    · split at h
      · simp at h
      · split at h
        · simp at h
        · split at h
          · simp at h
          · split at h
            · simp at h
            · split at h
              · simp at h
              · injection h with hh1 hh2
                injection hh1 with hh1
                subst hh1
                exact ⟨_, _, _, rfl⟩
    · injection h with hh1 hh2
      subst hh2
      rw [h0] at h1
      simp at h1
  · injection h with hh1 hh2
    subst hh2
    rw [h0] at h1
    simp at h1

/-- C9: a request with `return_format = "url"` that reaches response
encoding is never answered with an error: the response carries the
not-implemented message and the sample rate; and both encoders produce,
for any non-base64 format, exactly the metadata of the base64 path. -/
theorem url_not_implemented :
    (∀ env st (j : JobInput) r st1, j.return_format = some "url" →
      st.reachedEncoding = false →
      handler env st (some j) = (r, st1) → st1.reachedEncoding = true →
      r.error = none ∧ r.message = some "URL format not implemented. Use base64." ∧
      r.sample_rate.isSome) ∧
    (∀ env rf buf sr lid mt vs app, rf ≠ "base64" →
      (encode_tts_response env rf buf sr lid mt vs app).error = none ∧
      (encode_tts_response env rf buf sr lid mt vs app).message =
        some "URL format not implemented. Use base64." ∧
      (encode_tts_response env rf buf sr lid mt vs app).sample_rate =
        (encode_tts_response env "base64" buf sr lid mt vs app).sample_rate ∧
      (encode_tts_response env rf buf sr lid mt vs app).language_id =
        (encode_tts_response env "base64" buf sr lid mt vs app).language_id ∧
      (encode_tts_response env rf buf sr lid mt vs app).model_type =
        (encode_tts_response env "base64" buf sr lid mt vs app).model_type ∧
      (encode_tts_response env rf buf sr lid mt vs app).mode =
        (encode_tts_response env "base64" buf sr lid mt vs app).mode ∧
      (encode_tts_response env rf buf sr lid mt vs app).voice_cloned =
        (encode_tts_response env "base64" buf sr lid mt vs app).voice_cloned) ∧
    (∀ env rf buf sr mt, rf ≠ "base64" →
      (encode_vc_response env rf buf sr mt).error = none ∧
      (encode_vc_response env rf buf sr mt).message =
        some "URL format not implemented. Use base64." ∧
      (encode_vc_response env rf buf sr mt).sample_rate =
        (encode_vc_response env "base64" buf sr mt).sample_rate ∧
      (encode_vc_response env rf buf sr mt).model_type =
        (encode_vc_response env "base64" buf sr mt).model_type ∧
      (encode_vc_response env rf buf sr mt).mode =
        (encode_vc_response env "base64" buf sr mt).mode) := by
  refine ⟨?_, ?_, ?_⟩
  · intro env st j r st1 hrf hflag h henc
    rw [handler_some] at h
    rcases hd : dispatch env st j with ⟨res, stx⟩
    rw [hd] at h
    unfold dispatch at hd
    have hrf2 : j.return_format.getD "base64" = "url" := by rw [hrf]; rfl
    match res, h with
    | .error e, h =>
      injection h with hh1 hh2
      subst hh2
      split at hd
      · rw [handle_vc_error_flag env st j e stx hd, hflag] at henc
        simp at henc
      · rw [handle_tts_error_flag env st j e stx hd, hflag] at henc
        simp at henc
    | .ok r2, h =>
      injection h with hh1 hh2
      subst hh1 hh2
      split at hd
      · obtain ⟨buf, sr, mt, hr⟩ := handle_vc_ok_flag_form env st j r2 stx hd hflag henc
        subst hr
        rw [hrf2]
        unfold encode_vc_response
        rw [if_neg (by decide : ¬("url" = "base64"))]
        exact ⟨rfl, rfl, rfl⟩
      · obtain ⟨buf, sr, mt, app, hr⟩ :=
          handle_tts_ok_flag_form env st j r2 stx hd hflag henc
        subst hr
        rw [hrf2]
        unfold encode_tts_response
        rw [if_neg (by decide : ¬("url" = "base64"))]
        exact ⟨rfl, rfl, rfl⟩
  · intro env rf buf sr lid mt vs app hrf
    unfold encode_tts_response
    rw [if_neg hrf, if_pos rfl]
    exact ⟨rfl, rfl, rfl, rfl, rfl, rfl, rfl⟩
  · intro env rf buf sr mt hrf
    unfold encode_vc_response
    rw [if_neg hrf, if_pos rfl]
    exact ⟨rfl, rfl, rfl, rfl, rfl⟩

/-- Witness for C9 at the concrete url-format request. -/
theorem url_not_implemented_witness :
    jobUrl.return_format = some "url" ∧
    st0.reachedEncoding = false ∧
    (handler okEnv st0 (some jobUrl)).2.reachedEncoding = true ∧
    ((handler okEnv st0 (some jobUrl)).1.error = none ∧
     (handler okEnv st0 (some jobUrl)).1.message =
       some "URL format not implemented. Use base64." ∧
     (handler okEnv st0 (some jobUrl)).1.sample_rate.isSome) :=
  ⟨rfl, rfl, by decide,
   url_not_implemented.1 okEnv st0 jobUrl _ _ rfl rfl Prod.mk.eta.symm (by decide)⟩

end Chatterbox
